import Mathlib

/-!
Verification of the streaming chat orchestration pipeline of the
AITravelPlanner backend (FastAPI + SQLAlchemy + httpx).

The development shallowly embeds the code of
`app/routers/chat.py` (the `generate` orchestrator),
`app/services/ai_tool_service.py` (tool executor),
`app/services/conversation_service.py` (conversation store) and the
error path of `app/services/chat_client.py` (upstream client), and
proves or refutes the spec's testable properties against it.

Modelling conventions:
* Python `dict` values coming from `json.loads` are modelled by the
  inductive `Json`; JSON numbers are modelled as rationals (the claims
  under study only pass numbers through, never compute with them).
* Database rows are plain Lean structures; the session is the `DB`
  structure, threaded explicitly.  UUIDs are modelled as strings drawn
  from a counter, `datetime.now()` as a tick counter `DB.clock`.
* An external persistence failure (the `except` branch of a commit) is
  injected through `DB.failSchedule`: each attempted commit pops one
  entry; `true` means the underlying engine raised.  The empty schedule
  means every commit succeeds.
* Each `yield` site of the SSE generator is one `SSEEvent` constructor.
-/

namespace AITravel

/-! ## Python JSON values (model of the values produced by `json.loads`) -/

inductive Json where
  | null
  | bool (b : Bool)
  | num (q : Rat)
  | str (s : String)
  | arr (elems : List Json)
  | obj (fields : List (String × Json))
deriving Inhabited

/-- Python dict lookup `d.get(k)` on a parsed JSON object: the parser below
collapses duplicate keys the way `dict` assignment does, so plain first-match
lookup is faithful. -/
def jGet (fields : List (String × Json)) (k : String) : Option Json :=
  match fields with
  | [] => none
  | (k', v) :: rest => if k' = k then some v else jGet rest k

/-- Insert a key into a JSON-object field list with `dict` semantics:
a later assignment to an existing key overwrites in place. -/
def jSet (fields : List (String × Json)) (k : String) (v : Json) : List (String × Json) :=
  match fields with
  | [] => [(k, v)]
  | (k', v') :: rest => if k' = k then (k', v) :: rest else (k', v') :: jSet rest k v

/-! ## Model of `json.loads` (Python standard library)

The claims only need the parser's verdict (well-formed or not) and the
resulting object; error message texts are descriptive stand-ins for
`json.JSONDecodeError`'s messages. -/

def jsonWs (c : Char) : Bool :=
  c = ' ' || c = '\t' || c = '\n' || c = '\r'

def skipWs : List Char → List Char
  | [] => []
  | c :: cs => if jsonWs c then skipWs cs else c :: cs

def hexVal (c : Char) : Option Nat :=
  if '0' ≤ c ∧ c ≤ '9' then some (c.toNat - 48)
  else if 'a' ≤ c ∧ c ≤ 'f' then some (c.toNat - 87)
  else if 'A' ≤ c ∧ c ≤ 'F' then some (c.toNat - 55)
  else none

def parseHex4 (cs : List Char) : Option (Nat × List Char) :=
  match cs with
  | a :: b :: c :: d :: rest =>
    match hexVal a, hexVal b, hexVal c, hexVal d with
    | some x, some y, some z, some w => some (((x * 16 + y) * 16 + z) * 16 + w, rest)
    | _, _, _, _ => none
  | _ => none

/-- Body of a JSON string literal after the opening quote; returns the decoded
characters and the input after the closing quote. -/
def parseStrChars : Nat → List Char → Except String (List Char × List Char)
  | 0, _ => .error "Unterminated string"
  | _ + 1, [] => .error "Unterminated string"
  | fuel + 1, c :: cs =>
    if c = '"' then .ok ([], cs)
    else if c = '\\' then
      match cs with
      | [] => .error "Unterminated string"
      | e :: cs' =>
        let dec : Except String (Char × List Char) :=
          if e = '"' then .ok ('"', cs')
          else if e = '\\' then .ok ('\\', cs')
          else if e = '/' then .ok ('/', cs')
          else if e = 'b' then .ok ('\x08', cs')
          else if e = 'f' then .ok ('\x0c', cs')
          else if e = 'n' then .ok ('\n', cs')
          else if e = 'r' then .ok ('\r', cs')
          else if e = 't' then .ok ('\t', cs')
          else if e = 'u' then
            match parseHex4 cs' with
            | some (n, rest) => .ok (Char.ofNat n, rest)
            | none => .error "Invalid \\uXXXX escape"
          else .error "Invalid \\escape"
        match dec with
        | .ok (ch, rest) =>
          match parseStrChars fuel rest with
          | .ok (out, rem) => .ok (ch :: out, rem)
          | .error msg => .error msg
        | .error msg => .error msg
    else
      match parseStrChars fuel cs with
      | .ok (out, rem) => .ok (c :: out, rem)
      | .error msg => .error msg

def isDigit (c : Char) : Bool := '0' ≤ c && c ≤ '9'

def digitsToNat (cs : List Char) : Nat :=
  cs.foldl (fun acc c => acc * 10 + (c.toNat - 48)) 0

/-- JSON number grammar `-? int frac? exp?` with `int = 0 | [1-9][0-9]*`,
evaluated exactly as a rational. -/
def parseNumber (cs : List Char) : Except String (Rat × List Char) :=
  let (sign, cs1) : Rat × List Char :=
    match cs with
    | '-' :: rest => (-1, rest)
    | _ => (1, cs)
  let intDigits := cs1.takeWhile isDigit
  let afterInt := cs1.dropWhile isDigit
  if intDigits.isEmpty then .error "Expecting value"
  else if intDigits.length > 1 ∧ intDigits.headD '0' = '0' then .error "Expecting value"
  else
    let ipart : Rat := (digitsToNat intDigits : Nat)
    let (fpart, afterFrac) : Rat × List Char :=
      match afterInt with
      | '.' :: rest =>
        let fd := rest.takeWhile isDigit
        ((digitsToNat fd : Nat) / ((10 : Rat) ^ fd.length), rest.dropWhile isDigit)
      | _ => (0, afterInt)
    let fracBad : Bool :=
      match afterInt with
      | '.' :: rest => (rest.takeWhile isDigit).isEmpty
      | _ => false
    if fracBad then .error "Expecting digits after decimal point"
    else
      let (expOk, expVal, afterExp) : Bool × Int × List Char :=
        match afterFrac with
        | c :: rest =>
          if c = 'e' ∨ c = 'E' then
            let (esign, rest1) : Int × List Char :=
              match rest with
              | '-' :: r => (-1, r)
              | '+' :: r => (1, r)
              | _ => (1, rest)
            let ed := rest1.takeWhile isDigit
            if ed.isEmpty then (false, 0, rest1)
            else (true, esign * (digitsToNat ed : Int), rest1.dropWhile isDigit)
          else (true, 0, afterFrac)
        | [] => (true, 0, afterFrac)
      if !expOk then .error "Expecting digits in exponent"
      else .ok (sign * (ipart + fpart) * (10 : Rat) ^ expVal, afterExp)

mutual

/-- One JSON value, leading whitespace allowed. -/
def parseVal : Nat → List Char → Except String (Json × List Char)
  | 0, _ => .error "Too deeply nested"
  | fuel + 1, cs =>
    match skipWs cs with
    | [] => .error "Expecting value"
    | c :: rest =>
      if c = '"' then
        match parseStrChars (rest.length + 1) rest with
        | .ok (out, rem) => .ok (.str (String.mk out), rem)
        | .error msg => .error msg
      else if c = '\x7b' then parseObjRest fuel [] (skipWs rest)
      else if c = '[' then parseArrRest fuel [] (skipWs rest)
      else if c = 't' then
        match rest with
        | 'r' :: 'u' :: 'e' :: rem => .ok (.bool true, rem)
        | _ => .error "Expecting value"
      else if c = 'f' then
        match rest with
        | 'a' :: 'l' :: 's' :: 'e' :: rem => .ok (.bool false, rem)
        | _ => .error "Expecting value"
      else if c = 'n' then
        match rest with
        | 'u' :: 'l' :: 'l' :: rem => .ok (.null, rem)
        | _ => .error "Expecting value"
      else if isDigit c ∨ c = '-' then
        match parseNumber (c :: rest) with
        | .ok (q, rem) => .ok (.num q, rem)
        | .error msg => .error msg
      else .error "Expecting value"

/-- Members of an object after `\x7b` (whitespace already skipped). -/
def parseObjRest : Nat → List (String × Json) → List Char → Except String (Json × List Char)
  | 0, _, _ => .error "Too deeply nested"
  | _ + 1, acc, '\x7d' :: rem => .ok (.obj acc, rem)
  | fuel + 1, acc, cs =>
    match cs with
    | '"' :: rest =>
      match parseStrChars (rest.length + 1) rest with
      | .error msg => .error msg
      | .ok (kout, afterKey) =>
        match skipWs afterKey with
        | ':' :: afterColon =>
          match parseVal fuel afterColon with
          | .error msg => .error msg
          | .ok (v, afterVal) =>
            let acc' := jSet acc (String.mk kout) v
            match skipWs afterVal with
            | ',' :: afterComma => parseObjRest fuel acc' (skipWs afterComma)
            | '\x7d' :: rem => .ok (.obj acc', rem)
            | _ => .error "Expecting comma delimiter"
        | _ => .error "Expecting colon delimiter"
    | _ => .error "Expecting property name enclosed in double quotes"

/-- Items of an array after `[` (whitespace already skipped). -/
def parseArrRest : Nat → List Json → List Char → Except String (Json × List Char)
  | 0, _, _ => .error "Too deeply nested"
  | _ + 1, acc, ']' :: rem => .ok (.arr acc, rem)
  | fuel + 1, acc, cs =>
    match parseVal fuel cs with
    | .error msg => .error msg
    | .ok (v, afterVal) =>
      match skipWs afterVal with
      | ',' :: afterComma => parseArrRest fuel (acc ++ [v]) (skipWs afterComma)
      | ']' :: rem => .ok (.arr (acc ++ [v]), rem)
      | _ => .error "Expecting comma delimiter"

end

/-- Model of `json.loads`: parse one value and require only whitespace after. -/
def json_loads (s : String) : Except String Json :=
  match parseVal (s.length + 1) s.data with
  | .error msg => .error msg
  | .ok (j, rem) => if (skipWs rem).isEmpty then .ok j else .error "Extra data"

/-! ## Model of `json.dumps` (default options: `ensure_ascii=True`,
separators `", "` and `": "`, insertion-ordered dict keys) -/

def hexDigit (n : Nat) : Char :=
  if n < 10 then Char.ofNat (48 + n) else Char.ofNat (97 + n - 10)

def hex4 (n : Nat) : String :=
  String.mk [hexDigit (n / 4096 % 16), hexDigit (n / 256 % 16), hexDigit (n / 16 % 16), hexDigit (n % 16)]

/-- `json.dumps` escapes `"` and `\\`, the usual control shorthands, and —
with `ensure_ascii=True` — every character outside `0x20..0x7e`, using
`\uXXXX` (a surrogate pair beyond the BMP). -/
def pyEscapeChar (c : Char) : String :=
  if c = '"' then "\\\""
  else if c = '\\' then "\\\\"
  else if c = '\n' then "\\n"
  else if c = '\r' then "\\r"
  else if c = '\t' then "\\t"
  else if c = '\x08' then "\\b"
  else if c = '\x0c' then "\\f"
  else if c.toNat < 0x20 ∨ c.toNat > 0x7e then
    if c.toNat < 0x10000 then "\\u" ++ hex4 c.toNat
    else
      let v := c.toNat - 0x10000
      "\\u" ++ hex4 (0xd800 + v / 0x400) ++ "\\u" ++ hex4 (0xdc00 + v % 0x400)
  else String.singleton c

def pyJsonStr (s : String) : String :=
  "\"" ++ String.join (s.data.map pyEscapeChar) ++ "\""

/-- Rendering of a JSON number by `json.dumps`.  Integral rationals print as
Python ints; non-integral ones use a simple exact rendering (the claims never
inspect a serialized non-integral number, they only pass them through). -/
def dumpsNum (q : Rat) : String :=
  if q.den = 1 then toString q.num else toString q.num ++ "/" ++ toString q.den

mutual

def dumpsJson : Json → String
  | .null => "null"
  | .bool b => if b then "true" else "false"
  | .num q => dumpsNum q
  | .str s => pyJsonStr s
  | .arr xs => "[" ++ dumpsArr xs ++ "]"
  | .obj fs => "\x7b" ++ dumpsObj fs ++ "\x7d"

def dumpsArr : List Json → String
  | [] => ""
  | [x] => dumpsJson x
  | x :: y :: rest => dumpsJson x ++ ", " ++ dumpsArr (y :: rest)

def dumpsObj : List (String × Json) → String
  | [] => ""
  | [(k, v)] => pyJsonStr k ++ ": " ++ dumpsJson v
  | (k, v) :: p :: rest => pyJsonStr k ++ ": " ++ dumpsJson v ++ ", " ++ dumpsObj (p :: rest)

end

/-! ## Python string helpers -/

/-- The whitespace set stripped by `str.strip()` (ASCII part; the code under
study never feeds it exotic Unicode whitespace). -/
def pyWsChar (c : Char) : Bool :=
  c = ' ' || c = '\t' || c = '\n' || c = '\r' || c = '\x0b' || c = '\x0c'

/-- Model of Python `s.strip()`. -/
def pyStrip (s : String) : String :=
  String.mk (((s.data.dropWhile pyWsChar).reverse.dropWhile pyWsChar).reverse)

/-- Model of Python `s[:n]` (slicing by characters). -/
def pySlice (s : String) (n : Nat) : String := String.mk (s.data.take n)

/-- Join a list of strings with a separator (model of `str.join`). -/
def joinWith (sep : String) : List String → String
  | [] => ""
  | [s] => s
  | s :: t :: rest => s ++ sep ++ joinWith sep (t :: rest)

/-! ## Model of `datetime.strptime(date_str, "%Y-%m-%d")`

CPython's `_strptime` compiles the format to the regex
`(?P<Y>\d\d\d\d)-(?P<m>1[0-2]|0[1-9]|[1-9])-(?P<d>3[01]|[12]\d|0[1-9]|[1-9]| [1-9])`
matched against the whole string, then builds a `datetime`, which checks
calendar validity (month lengths, leap years) and rejects year 0.
Note the month and the day may be a single digit — `%m`/`%d` are not
zero-padding strict. -/

structure Date where
  year : Nat
  month : Nat
  day : Nat
deriving DecidableEq, Repr, Inhabited

def isLeap (y : Nat) : Bool :=
  y % 4 = 0 && (y % 100 ≠ 0 || y % 400 = 0)

def daysInMonth (y m : Nat) : Nat :=
  if m = 2 then (if isLeap y then 29 else 28)
  else if m = 4 ∨ m = 6 ∨ m = 9 ∨ m = 11 then 30
  else 31

def allDigits (cs : List Char) : Bool := cs.all isDigit

/-- Split on the `-` character (the behaviour of `"…".split("-")` on the
pieces strptime's literal separators produce). -/
def splitDash (cs : List Char) : List (List Char) :=
  match cs with
  | [] => [[]]
  | c :: rest =>
    if c = '-' then [] :: splitDash rest
    else
      match splitDash rest with
      | [] => [[c]]
      | p :: ps => (c :: p) :: ps

/-- `%Y`: exactly four digits. -/
def matchYear (cs : List Char) : Option Nat :=
  if cs.length = 4 ∧ allDigits cs then some (digitsToNat cs) else none

/-- `%m`: one or two digits, value 1..12 (`0` and `00` do not match). -/
def matchMonth (cs : List Char) : Option Nat :=
  if (cs.length = 1 ∨ cs.length = 2) ∧ allDigits cs then
    let v := digitsToNat cs
    if 1 ≤ v ∧ v ≤ 12 then some v else none
  else none

/-- `%d`: one or two digits with value 1..31 (no `0`/`00`), or a space
followed by a nonzero digit. -/
def matchDay (cs : List Char) : Option Nat :=
  match cs with
  | [c] => if isDigit c ∧ c ≠ '0' then some (digitsToNat [c]) else none
  | [' ', c] => if isDigit c ∧ c ≠ '0' then some (digitsToNat [c]) else none
  | [c1, c2] =>
    if isDigit c1 ∧ isDigit c2 then
      let v := digitsToNat [c1, c2]
      if 1 ≤ v ∧ v ≤ 31 then some v else none
    else none
  | _ => none

/-- Model of `AiToolService._parse_date` succeeding: `strptime` with format
`%Y-%m-%d` plus `datetime`'s calendar validation.  `none` models the
`ValueError` branch. -/
def parse_date (s : String) : Option Date :=
  match splitDash s.data with
  | [ys, ms, ds] =>
    match matchYear ys, matchMonth ms, matchDay ds with
    | some y, some m, some d =>
      if 1 ≤ y ∧ d ≤ daysInMonth y m then some ⟨y, m, d⟩ else none
    | _, _, _ => none
  | _ => none

/-- Chronological order on dates (model of `datetime` comparison). -/
def dateGt (a b : Date) : Bool :=
  a.year > b.year ∨ (a.year = b.year ∧ (a.month > b.month ∨ (a.month = b.month ∧ a.day > b.day)))

def pad2 (n : Nat) : String := if n < 10 then "0" ++ toString n else toString n

def pad4 (n : Nat) : String :=
  if n < 10 then "000" ++ toString n
  else if n < 100 then "00" ++ toString n
  else if n < 1000 then "0" ++ toString n
  else toString n

/-- Model of `date.strftime("%Y-%m-%d")`. -/
def fmtDate (d : Date) : String := pad4 d.year ++ "-" ++ pad2 d.month ++ "-" ++ pad2 d.day

/-! ## Tool-call fragments and the incremental buffer
(`chat.py`, `generate`, lines 133-165)

A wire fragment is one element of `delta.tool_calls`.  A field is `none`
when the key is absent from the fragment dict (a JSON `null` value behaves
identically everywhere these fields are consumed, so it is folded into
`none`); a fragment that is not a dict behaves exactly like one whose
`index` is missing (both are dropped), so `index = none` covers it. -/

structure ToolFunctionDelta where
  name : Option String
  arguments : Option String
deriving DecidableEq, Repr, Inhabited

structure ToolCallDelta where
  index : Option Nat
  id : Option String
  function : Option ToolFunctionDelta
deriving DecidableEq, Repr, Inhabited

/-- One entry of `tool_calls_buffer` (the nested `function` dict of the
source is flattened into the two `function_` fields). -/
structure BufferEntry where
  id : String
  function_name : String
  function_arguments : String
deriving DecidableEq, Repr, Inhabited

/-- `tool_calls_buffer` is a Python dict keyed by `index`; it is modelled as
an association list in insertion order, which is exactly the order
`dict.items()` later iterates in. -/
def findEntry (buf : List (Nat × BufferEntry)) (i : Nat) : Option BufferEntry :=
  match buf with
  | [] => none
  | (k, e) :: rest => if k = i then some e else findEntry rest i

def setEntry (buf : List (Nat × BufferEntry)) (i : Nat) (e : BufferEntry) :
    List (Nat × BufferEntry) :=
  match buf with
  | [] => []
  | (k, e') :: rest => if k = i then (k, e) :: rest else (k, e') :: setEntry rest i e

/-- First fragment for an index: store `id`, `function.name`,
`function.arguments` as given, defaulting missing pieces to `""`
(`chat.py` lines 145-152). -/
def initialEntry (tc : ToolCallDelta) : BufferEntry :=
  { id := tc.id.getD ""
    function_name := (tc.function.bind (fun f => f.name)).getD ""
    function_arguments := (tc.function.bind (fun f => f.arguments)).getD "" }

/-- Subsequent fragment for an existing index: overwrite `id` and
`function.name` when present and non-empty, append `function.arguments`
when present and non-empty (`chat.py` lines 153-163). -/
def updateEntry (e : BufferEntry) (tc : ToolCallDelta) : BufferEntry :=
  let e1 :=
    match tc.id with
    | some s => if s ≠ "" then { e with id := s } else e
    | none => e
  match tc.function with
  | none => e1
  | some f =>
    let e2 :=
      match f.name with
      | some s => if s ≠ "" then { e1 with function_name := s } else e1
      | none => e1
    match f.arguments with
    | some s =>
      if s ≠ "" then { e2 with function_arguments := e2.function_arguments ++ s } else e2
    | none => e2

/-- Ingest one fragment into the buffer (`chat.py` lines 135-163): fragments
without an `index` are dropped; a new index is appended at the end of the
dict; an existing index is updated in place. -/
def ingestToolCall (buf : List (Nat × BufferEntry)) (tc : ToolCallDelta) :
    List (Nat × BufferEntry) :=
  match tc.index with
  | none => buf
  | some i =>
    match findEntry buf i with
    | none => buf ++ [(i, initialEntry tc)]
    | some e => setEntry buf i (updateEntry e tc)

def ingestToolCalls (buf : List (Nat × BufferEntry)) (tcs : List ToolCallDelta) :
    List (Nat × BufferEntry) :=
  tcs.foldl ingestToolCall buf

/-! ## Database rows and session (`app/models`, abstracted engine)

UUID values are modelled as strings generated from `DB.nextId`;
`datetime.now()` / `func.now()` as the tick counter `DB.clock`;
`updated_at` is nullable exactly as in the schema (no default — a freshly
inserted conversation has `updated_at = none`). -/

structure TripRec where
  id : String
  user_id : Nat
  title : String
  destination : String
  start_date : Date
  end_date : Date
  total_budget : Rat
  actual_expense : Rat
  created_at : Nat
deriving DecidableEq, Repr

structure ConvRec where
  id : String
  title : String
  user_id : Nat
  model : String
  is_active : Bool
  created_at : Nat
  updated_at : Option Nat
deriving DecidableEq, Repr, Inhabited

structure MsgRec where
  conversation_id : String
  role : String
  content : String
  name : Option String
  tokens : Nat
deriving DecidableEq, Repr

structure LogRec where
  user_id : Nat
  endpoint : String
  model : Option String
  status_code : Nat
  error_message : Option String
deriving DecidableEq, Repr

structure DB where
  conversations : List ConvRec
  messages : List MsgRec
  trips : List TripRec
  logs : List LogRec
  clock : Nat
  nextId : Nat
  failSchedule : List Bool
deriving DecidableEq, Repr

def emptyDB : DB :=
  { conversations := [], messages := [], trips := [], logs := [], clock := 0, nextId := 0,
    failSchedule := [] }

/-- Pop the next injected commit outcome; an exhausted schedule means the
commit succeeds. -/
def popFail (db : DB) : Bool × DB :=
  match db.failSchedule with
  | [] => (false, db)
  | b :: rest => (b, { db with failSchedule := rest })

/-! ## ConversationService (`app/services/conversation_service.py`) -/

/-- `select(Conversation).where(id == conversation_id, user_id == user_id)`
with `scalar_one_or_none` (ids are unique, so first match). -/
def findConv (db : DB) (conversation_id : String) (user_id : Nat) : Option ConvRec :=
  (db.conversations.filter
    (fun c => c.id = conversation_id && c.user_id = user_id)).head?

def setConv (db : DB) (c : ConvRec) : DB :=
  { db with conversations := db.conversations.map (fun x => if x.id = c.id then c else x) }

def countMessages (db : DB) (conversation_id : String) : Nat :=
  (db.messages.filter (fun m => m.conversation_id = conversation_id)).length

/-- `ORDER BY updated_at DESC LIMIT 1` under PostgreSQL: nulls sort first in
descending order, i.e. a never-updated conversation beats every updated one;
otherwise the larger `updated_at` wins, ties left-biased (engine order is
unspecified for ties; the model keeps the first row). -/
def updGt : Option Nat → Option Nat → Bool
  | none, none => false
  | none, some _ => true
  | some _, none => false
  | some a, some b => a > b

def pickLatest (cs : List ConvRec) : Option ConvRec :=
  cs.foldl
    (fun best c =>
      match best with
      | none => some c
      | some b => if updGt c.updated_at b.updated_at then some c else some b)
    none

/-- A freshly inserted conversation row: `updated_at` has no default and
stays NULL until a later update. -/
def newConversation (db : DB) (user_id : Nat) (title : String) (model : String) : ConvRec :=
  { id := "conv-" ++ toString db.nextId, title := title, user_id := user_id,
    model := model, is_active := true, created_at := db.clock, updated_at := none }

/-- Insert a conversation row and commit. -/
def insertConversation (db : DB) (c : ConvRec) : DB :=
  { db with
      conversations := db.conversations ++ [c]
      nextId := db.nextId + 1
      clock := db.clock + 1 }

/-- `ConversationService.get_or_create_conversation` (lines 153-184): return
the user's active conversation that the `ORDER BY updated_at DESC LIMIT 1`
query yields, or insert a fresh one (model `"chat-model"`, empty history)
with the given title when the user has none. -/
def get_or_create_conversation (db : DB) (user_id : Nat) (title : String) :
    ConvRec × DB :=
  match pickLatest (db.conversations.filter (fun c => c.user_id = user_id && c.is_active)) with
  | some c => (c, db)
  | none =>
    (newConversation db user_id title "chat-model",
      insertConversation db (newConversation db user_id title "chat-model"))

/-- `ConversationService.create_conversation` (lines 24-45), the
`POST /api/chat/conversations` path: unconditionally inserts a new
conversation with the requested title (note: `updated_at` stays NULL). -/
def create_conversation (db : DB) (user_id : Nat) (title : String) : ConvRec × DB :=
  (newConversation db user_id title "deepseek-chat",
    insertConversation db (newConversation db user_id title "deepseek-chat"))

/-- `ConversationService.add_message` (lines 222-281).  Empty or
whitespace-only content, a missing conversation, and any engine exception
(injected via the fail schedule; the code catches it, rolls back, prints a
warning and returns `None`) all yield `none` with no visible change.
Otherwise one message row is inserted, the conversation's `updated_at` is
bumped, and — when the conversation had no messages yet and the role is
`user` — the title is reset to a 50-character prefix of the raw content. -/
def add_message (db : DB) (conversation_id : String) (user_id : Nat)
    (role : String) (content : String) (name : Option String) :
    Option ConvRec × DB :=
  if pyStrip content = "" then (none, db)
  else
    match findConv db conversation_id user_id with
    | none => (none, db)
    | some conv =>
      let (failed, db1) := popFail db
      if failed then (none, db1)
      else
        let msg : MsgRec :=
          { conversation_id := conversation_id, role := role, content := pyStrip content,
            name := name, tokens := 0 }
        if msg.role = "" then (none, db1)
        else
          let cnt := countMessages db1 conversation_id
          let title' :=
            if cnt = 0 ∧ role = "user" then
              (if content.length > 50 then pySlice content 50 ++ "..." else content)
            else conv.title
          let conv' := { conv with title := title', updated_at := some db1.clock }
          let db2 := setConv db1 conv'
          (some conv',
            { db2 with messages := db2.messages ++ [msg], clock := db2.clock + 1 })

/-- `APILogService.create_log` (lines 322-353), restricted to the fields the
chat route passes. -/
def create_log (db : DB) (user_id : Nat) (endpoint : String) (model : Option String)
    (status_code : Nat) (error_message : Option String) : DB :=
  { db with logs := db.logs ++
      [{ user_id := user_id, endpoint := endpoint, model := model,
         status_code := status_code, error_message := error_message }] }

/-! ## AiToolService (`app/services/ai_tool_service.py`) -/

structure CreateTripTool where
  title : String
  destination : String
  start_date : String
  end_date : String
  total_budget : Rat
deriving DecidableEq, Repr

structure ToolCallResult where
  tool_name : String
  success : Bool
  data : Option (List (String × Json))
  error : Option String
deriving Inhabited

/-- Pydantic v2 lax coercion of a JSON value to `float`: numbers pass,
numeric strings are accepted via `float(str)`, everything else fails. -/
def asBudget : Json → Option Rat
  | .num q => some q
  | .str s =>
    match parseNumber (pyStrip s).data with
    | .ok (q, rem) => if rem.isEmpty ∧ (pyStrip s).data ≠ [] then some q else none
    | .error _ => none
  | _ => none

/-- Model of `CreateTripTool(**params_dict)`: pydantic v2 requires the five
fields, with `str` fields taking only strings and `total_budget` a number.
A non-mapping top level is the `TypeError` of `**`; both that and a
`ValidationError` are caught by the same generic handler in the caller. -/
def validateCreateTripTool (j : Json) : Except String CreateTripTool :=
  match j with
  | .obj fields =>
    match jGet fields "title", jGet fields "destination", jGet fields "start_date",
        jGet fields "end_date", jGet fields "total_budget" with
    | some (.str t), some (.str dst), some (.str sd), some (.str ed), some bj =>
      match asBudget bj with
      | some q => .ok { title := t, destination := dst, start_date := sd, end_date := ed,
                        total_budget := q }
      | none => .error "validation error for CreateTripTool: total_budget"
    | _, _, _, _, _ => .error "validation error for CreateTripTool: missing or mistyped field"
  | _ => .error "argument after ** must be a mapping"

/-- ORM attribute lookup on a `Trip` row (`app/models/trip.py`): the table
has no `conversation_id` column, so that lookup — and only that one among
the fields `schemas/trip.py`'s `Trip` requires — fails. -/
def tripGetAttr (t : TripRec) : String → Option Json
  | "id" => some (.str t.id)
  | "user_id" => some (.num t.user_id)
  | "title" => some (.str t.title)
  | "destination" => some (.str t.destination)
  | "start_date" => some (.str (fmtDate t.start_date))
  | "end_date" => some (.str (fmtDate t.end_date))
  | "total_budget" => some (.num t.total_budget)
  | "actual_expense" => some (.num t.actual_expense)
  | "created_at" => some (.num t.created_at)
  | _ => none

/-- Model of `TripSchema.model_validate(trip)` (`ai_tool_service.py` line 82)
against `app/schemas/trip.py`, whose `Trip` requires, without defaults:
`id`, `user_id`, `actual_expense`, `conversation_id`, `created_at`. -/
def tripSchemaValidate (t : TripRec) : Except String Unit :=
  let missing :=
    (["id", "user_id", "actual_expense", "conversation_id", "created_at"].filter
      (fun f => (tripGetAttr t f).isNone))
  if missing = [] then .ok ()
  else .error ("validation error for Trip: " ++ joinWith ", " missing ++
    " Field required")

/-- `datetime.isoformat()` of a modelled tick. -/
def isoTs (n : Nat) : String := "tick-" ++ toString n

/-- `AiToolService.execute_create_trip` (lines 30-113): parse both dates
(`ValueError` → the `日期格式错误` result), reject `start_date > end_date`,
otherwise insert and commit the trip row.  The subsequent
`TripSchema.model_validate(trip)` runs *after* the commit; its exception is
caught by the generic handler, which rolls back the (already empty) new
transaction and returns a failure result — the committed row stays. -/
def execute_create_trip (tool_call_id : String) (params : CreateTripTool)
    (user_id : Nat) (db : DB) : ToolCallResult × DB :=
  let _ := tool_call_id
  match parse_date params.start_date with
  | none =>
    ({ tool_name := "create_trip", success := false, data := none,
       error := some ("日期格式错误: 日期格式不正确，应为YYYY-MM-DD格式，实际为: " ++
         params.start_date) }, db)
  | some sd =>
    match parse_date params.end_date with
    | none =>
      ({ tool_name := "create_trip", success := false, data := none,
         error := some ("日期格式错误: 日期格式不正确，应为YYYY-MM-DD格式，实际为: " ++
           params.end_date) }, db)
    | some ed =>
      if dateGt sd ed then
        ({ tool_name := "create_trip", success := false, data := none,
           error := some "出发日期不能晚于结束日期" }, db)
      else
        let (failed, db1) := popFail db
        if failed then
          ({ tool_name := "create_trip", success := false, data := none,
             error := some "创建行程失败: database commit failed" }, db1)
        else
          let trip : TripRec :=
            { id := "trip-" ++ toString db1.nextId, user_id := user_id,
              title := params.title, destination := params.destination,
              start_date := sd, end_date := ed, total_budget := params.total_budget,
              actual_expense := 0, created_at := db1.clock }
          let db2' := { db1 with trips := db1.trips ++ [trip] }
          let db2 := { db2' with nextId := db2'.nextId + 1, clock := db2'.clock + 1 }
          match tripSchemaValidate trip with
          | .error e =>
            ({ tool_name := "create_trip", success := false, data := none,
               error := some ("创建行程失败: " ++ e) }, db2)
          | .ok _ =>
            ({ tool_name := "create_trip", success := true,
               data := some
                 [("trip_id", .str trip.id), ("title", .str trip.title),
                  ("destination", .str trip.destination),
                  ("start_date", .str (fmtDate trip.start_date)),
                  ("end_date", .str (fmtDate trip.end_date)),
                  ("total_budget", .num trip.total_budget),
                  ("created_at", .str (isoTs trip.created_at))],
               error := none }, db2)

/-- `AiToolService.execute_tool_call` (lines 115-164): dispatch on the tool
name, parse the JSON arguments (`json.JSONDecodeError` → the `参数解析失败`
result), build the pydantic parameter model (any exception → the
`工具执行失败` result), and run the tool.  Total by construction — every
failure is a `success := false` result. -/
def execute_tool_call (tool_call_id : String) (tool_name : String)
    (arguments : String) (user_id : Nat) (db : DB) : ToolCallResult × DB :=
  if tool_name = "create_trip" then
    match json_loads arguments with
    | .error e =>
      ({ tool_name := tool_name, success := false, data := none,
         error := some ("参数解析失败: " ++ e) }, db)
    | .ok j =>
      match validateCreateTripTool j with
      | .error e =>
        ({ tool_name := tool_name, success := false, data := none,
           error := some ("工具执行失败: " ++ e) }, db)
      | .ok params => execute_create_trip tool_call_id params user_id db
  else
    ({ tool_name := tool_name, success := false, data := none,
       error := some ("未知的工具: " ++ tool_name) }, db)

/-! ## Serialization used by the orchestrator -/

/-- `json.dumps({"tool_calls": [tool_call]})` for one buffer entry
(`chat.py` line 207) — the buffer dict's key order is `id`, `function`,
with `function` holding `name` then `arguments`. -/
def dumpsToolCallRecord (e : BufferEntry) : String :=
  dumpsJson (.obj
    [("tool_calls", .arr
      [.obj [("id", .str e.id),
             ("function", .obj [("name", .str e.function_name),
                                ("arguments", .str e.function_arguments)])]])])

/-- `json.dumps(result.dict())` (`chat.py` lines 216 and 224): the pydantic
field order is `tool_name`, `success`, `data`, `error`. -/
def dumpsToolCallResult (r : ToolCallResult) : String :=
  dumpsJson (.obj
    [("tool_name", .str r.tool_name), ("success", .bool r.success),
     ("data", match r.data with | some fs => .obj fs | none => .null),
     ("error", match r.error with | some e => .str e | none => .null)])

/-! ## ChatClient error path (`app/services/chat_client.py`) -/

/-- A raised `fastapi.HTTPException`. -/
structure PyError where
  status_code : Nat
  detail : String
deriving DecidableEq, Repr

/-- Starlette's `HTTPException.__str__`. -/
def pyErrStr (e : PyError) : String := toString e.status_code ++ ": " ++ e.detail

/-- Python `str()` of a decoded JSON value, used when `error.message` is
present but not a string (the f-string stringifies whatever it got). -/
def pyStrOfJson : Json → String
  | .null => "None"
  | .bool b => if b then "True" else "False"
  | .num q => dumpsNum q
  | .str s => s
  | v => dumpsJson v

/-- `chat_completion_stream` lines 128-137: read the error body; if it is
JSON, take `error_data.get("error", \x7b\x7d).get("message", error_text_str)`.
Any exception in that expression — the body not parsing, or `.get` hitting a
non-dict — falls back to the raw body text via the bare `except`. -/
def extract_error_message (body : String) : String :=
  match json_loads body with
  | .error _ => body
  | .ok (.obj fields) =>
    match jGet fields "error" with
    | none => body
    | some (.obj efields) =>
      match jGet efields "message" with
      | some v => pyStrOfJson v
      | none => body
    | some _ => body
  | .ok _ => body

/-- `ChatClient._handle_api_error` lines 217-236 with `error_message` already
extracted (the streaming path always passes it): map the upstream status to a
typed `HTTPException` carrying the extracted message. -/
def handle_api_error (status : Nat) (msg : String) : PyError :=
  if status = 401 then { status_code := 401, detail := "API密钥无效: " ++ msg }
  else if status = 429 then { status_code := 429, detail := "API请求频率限制: " ++ msg }
  else if status ≥ 500 then { status_code := 503, detail := "聊天服务暂时不可用: " ++ msg }
  else { status_code := status, detail := "聊天API错误: " ++ msg }

/-- The upstream-response error path of `chat_completion_stream`
(lines 128-138 and 174-175): a non-200 status reads the body and extracts the
message; `response.raise_for_status()` then raises exactly for non-2xx
statuses (httpx raises whenever the status is outside 200-299), and the
`except HTTPStatusError` handler re-raises the typed error.  A 2xx status
other than 200 falls through and streams normally. -/
def chat_client_response_error (status : Nat) (body : String) : Option PyError :=
  if 200 ≤ status ∧ status ≤ 299 then none
  else some (handle_api_error status (extract_error_message body))

/-! ## Stream chunks and outbound chat messages (`app/schemas/chat.py`) -/

/-- `StreamChatChoice.delta`, a dict with optional `content`/`tool_calls`
keys.  A JSON `null` under `content` behaves like the key being absent
(`.get('content','') or ""` yields `""` either way), so it is folded into
`none`; likewise for `tool_calls`. -/
structure StreamDelta where
  content : Option String
  tool_calls : Option (List ToolCallDelta)
deriving DecidableEq, Repr, Inhabited

/-- Python truthiness of the delta dict: falsy only when empty. -/
def StreamDelta.truthy (d : StreamDelta) : Bool :=
  d.content.isSome || d.tool_calls.isSome

structure StreamChoice where
  index : Nat
  delta : StreamDelta
  finish_reason : Option String
deriving DecidableEq, Repr, Inhabited

structure StreamChunk where
  id : String
  object : String
  created : Nat
  model : String
  choices : List StreamChoice
deriving DecidableEq, Repr, Inhabited

/-- `schemas.chat.ChatMessage`, as used for the outbound message list. -/
structure ChatMsg where
  role : String
  content : Option String
  name : Option String
  tool_call_id : Option String
  tool_calls : Option (List Json)
deriving Inhabited

def ChatMsg.user (content : String) : ChatMsg :=
  { role := "user", content := some content, name := none, tool_call_id := none,
    tool_calls := none }

def ChatMsg.system (content : String) : ChatMsg :=
  { role := "system", content := some content, name := none, tool_call_id := none,
    tool_calls := none }

/-- The tool message appended to the outbound list (`chat.py` lines 221-226):
note it carries `name` but no `tool_call_id` and no `tool_calls`. -/
def ChatMsg.toolResult (content : String) (tool_name : String) : ChatMsg :=
  { role := "tool", content := some content, name := some tool_name,
    tool_call_id := none, tool_calls := none }

/-! ## The SSE generator (`chat.py`, `generate`, lines 89-304)

Each constructor of `SSEEvent` is one `yield` site of the generator. -/

inductive SSEEvent where
  | chunk (c : StreamChunk)
  | keepAlive
  | done
  | errorFrame (msg : String)
deriving DecidableEq, Repr

structure Pass1State where
  full_content : String
  buffer : List (Nat × BufferEntry)
  events : List SSEEvent
deriving Repr

/-- One iteration of the pass-1 loop (lines 102-168): for a chunk with
choices, read `delta.content` (missing/null → `""`) and, when non-empty,
accumulate it and forward the chunk; feed every element of
`delta.tool_calls` to the buffer (Python skips a falsy — in particular
empty — list, which ingests nothing either way); finally always yield one
keep-alive. -/
def pass1Step (st : Pass1State) (ch : StreamChunk) : Pass1State :=
  match ch.choices.head? with
  | none => { st with events := st.events ++ [.keepAlive] }
  | some choice =>
    let content := choice.delta.content.getD ""
    let st1 :=
      if content ≠ "" then
        { st with full_content := st.full_content ++ content,
                  events := st.events ++ [.chunk ch] }
      else st
    let buf1 :=
      match choice.delta.tool_calls with
      | some tcs => ingestToolCalls st1.buffer tcs
      | none => st1.buffer
    { st1 with buffer := buf1, events := st1.events ++ [.keepAlive] }

def processPass1 (chunks : List StreamChunk) : Pass1State :=
  chunks.foldl pass1Step { full_content := "", buffer := [], events := [] }

structure Pass2State where
  assistant_response_content : String
  events : List SSEEvent
deriving Repr

/-- One iteration of the pass-2 loop (lines 230-253): the guard additionally
requires the delta dict to be truthy; tool calls in pass 2 are never
ingested or executed.  (`full_content` also accumulates here in the source
but is never read afterwards.) -/
def pass2Step (st : Pass2State) (ch : StreamChunk) : Pass2State :=
  match ch.choices.head? with
  | none => { st with events := st.events ++ [.keepAlive] }
  | some choice =>
    if choice.delta.truthy then
      let content := choice.delta.content.getD ""
      let st1 :=
        if content ≠ "" then
          { st with assistant_response_content := st.assistant_response_content ++ content,
                    events := st.events ++ [.chunk ch] }
        else st
      { st1 with events := st1.events ++ [.keepAlive] }
    else { st with events := st.events ++ [.keepAlive] }

def processPass2 (chunks : List StreamChunk) : Pass2State :=
  chunks.foldl pass2Step { assistant_response_content := "", events := [] }

/-- One call to `tool_service.execute_tool_call` as issued by the
orchestrator, in issue order. -/
structure ToolInvocation where
  tool_call_id : String
  tool_name : String
  arguments : String
deriving DecidableEq, Repr

structure ToolPhaseState where
  db : DB
  results : List (String × ToolCallResult × String)
  trace : List ToolInvocation

/-- One iteration of `for index, tool_call in tool_calls_buffer.items()`
(lines 176-218): entries whose assembled name is empty are skipped entirely;
otherwise the tool runs, then one assistant message holding the serialized
raw tool call and one tool message holding the serialized result are
persisted (their `add_message` return values are ignored). -/
def toolPhaseStep (user_id : Nat) (conv_id : String) (st : ToolPhaseState)
    (entry : Nat × BufferEntry) : ToolPhaseState :=
  let tc := entry.2
  if tc.function_name = "" then st
  else
    let (result, db1) := execute_tool_call tc.id tc.function_name tc.function_arguments
      user_id st.db
    let db2 := (add_message db1 conv_id user_id "assistant" (dumpsToolCallRecord tc)
      (some "assistant")).2
    let db3 := (add_message db2 conv_id user_id "tool" (dumpsToolCallResult result)
      (some tc.function_name)).2
    { db := db3,
      results := st.results ++ [(tc.id, result, tc.function_name)],
      trace := st.trace ++ [{ tool_call_id := tc.id, tool_name := tc.function_name,
                              arguments := tc.function_arguments }] }

def runToolPhase (buf : List (Nat × BufferEntry)) (user_id : Nat) (conv_id : String)
    (db : DB) : ToolPhaseState :=
  buf.foldl (toolPhaseStep user_id conv_id) { db := db, results := [], trace := [] }

/-- Everything observable about one run of the `generate` generator. -/
structure GenResult where
  events : List SSEEvent
  db : DB
  pass2Sent : Option (List ChatMsg)
  toolTrace : List ToolInvocation
  escaped : Option String

/-- Model of evaluating `request.model` inside `generate`:
`schemas.chat.ChatRequest` declares only `messages`, so the attribute lookup
raises.  Both the success tail (line 280) and the `except` handler
(line 294) evaluate it while building the `create_log` arguments. -/
def request_model_attr : Except String String :=
  .error "AttributeError: 'ChatRequest' object has no attribute 'model'"

/-- Lines 275-286, after the relevant persistence: the API log and the
terminal `[DONE]` would be produced here, but evaluating `request.model`
raises first and the exception reaches the `except` handler — which is the
`failTail` below. -/
def successTail (user_id : Nat) (events : List SSEEvent) (db : DB)
    (pass2Sent : Option (List ChatMsg)) (trace : List ToolInvocation) : GenResult :=
  match request_model_attr with
  | .error e =>
    -- the AttributeError is caught by the `except` at line 288, whose own
    -- `create_log` call evaluates `request.model` again and re-raises; the
    -- exception escapes the generator and the stream just stops
    { events := events, db := db, pass2Sent := pass2Sent, toolTrace := trace,
      escaped := some e }
  | .ok m =>
    { events := events ++ [.done],
      db := create_log db user_id "chat/completions/stream" (some m) 200 none,
      pass2Sent := pass2Sent, toolTrace := trace, escaped := none }

/-- Lines 288-301, the `except Exception` handler for an exception `caught`
raised during pass 1, the tool phase or pass 2: it would record a 500 log
and emit one error frame, but its own `create_log` call evaluates
`request.model` first, which raises and escapes the generator — neither the
log nor the error frame is produced. -/
def failTail (user_id : Nat) (events : List SSEEvent) (db : DB)
    (pass2Sent : Option (List ChatMsg)) (trace : List ToolInvocation)
    (caught : String) : GenResult :=
  match request_model_attr with
  | .error e =>
    { events := events, db := db, pass2Sent := pass2Sent, toolTrace := trace,
      escaped := some e }
  | .ok m =>
    { events := events ++ [.errorFrame caught],
      db := create_log db user_id "chat/completions/stream" (some m) 500 (some caught),
      pass2Sent := pass2Sent, toolTrace := trace, escaped := none }

/-- An upstream pass as consumed by the orchestrator: the chunks the client
generator yielded, then optionally the typed error it raised. -/
structure Script where
  pass1 : List StreamChunk
  pass1Err : Option PyError
  pass2 : List StreamChunk
  pass2Err : Option PyError

/-- The body of `generate` after the pass-1 loop, starting from the
accumulated pass-1 state. -/
def afterPass1 (script : Script) (user_id : Nat) (conv : ConvRec)
    (msgs : List ChatMsg) (db : DB) (st : Pass1State) : GenResult :=
  match script.pass1Err with
  | some e => failTail user_id st.events db none [] (pyErrStr e)
  | none =>
    match st.buffer with
    | [] =>
      -- no tool calls (lines 264-273): persist the accumulated content if
      -- non-empty (the `add_message` result is ignored), then the tail
      let db1 :=
        if st.full_content ≠ "" then
          (add_message db conv.id user_id "assistant" st.full_content (some "assistant")).2
        else db
      successTail user_id st.events db1 none []
    | b :: bs =>
      -- tool phase (lines 173-226) and pass 2 (lines 228-263)
      let tp := runToolPhase (b :: bs) user_id conv.id db
      let outMsgs := msgs ++ tp.results.map
        (fun r => ChatMsg.toolResult (dumpsToolCallResult r.2.1) r.2.2)
      let p2 := processPass2 script.pass2
      match script.pass2Err with
      | some e =>
        failTail user_id (st.events ++ p2.events) tp.db (some outMsgs) tp.trace (pyErrStr e)
      | none =>
        let db1 :=
          if p2.assistant_response_content ≠ "" then
            (add_message tp.db conv.id user_id "assistant" p2.assistant_response_content
              (some "assistant")).2
          else tp.db
        successTail user_id (st.events ++ p2.events) db1 (some outMsgs) tp.trace

/-- The whole `generate` generator (lines 89-304) for one request, driven by
the script of upstream chunks. -/
def runGenerate (script : Script) (user_id : Nat) (conv : ConvRec)
    (msgs : List ChatMsg) (db : DB) : GenResult :=
  afterPass1 script user_id conv msgs db (processPass1 script.pass1)

/-- The route body before the stream (lines 50-87): resolve or create the
conversation (title argument: first 50 characters of the first client
message, or `新对话`), persist the last client message as the user message
(result ignored), and build the outbound list by prepending the system
prompt when non-empty.  A first message whose `content` is `null` makes the
title slice raise `TypeError` before any streaming — returned as `.error`. -/
def runChatStream (script : Script) (user_id : Nat) (reqMessages : List ChatMsg)
    (sysPrompt : String) (db : DB) : Except String GenResult :=
  let titleOpt : Option String :=
    match reqMessages.head? with
    | some m => m.content.map (fun s => pySlice s 50)
    | none => some "新对话"
  match titleOpt with
  | none => .error "TypeError: 'NoneType' object is not subscriptable"
  | some title =>
    let (conv, db1) := get_or_create_conversation db user_id title
    let userContent := (reqMessages.getLast?.bind (fun m => m.content)).getD ""
    let userName := reqMessages.getLast?.bind (fun m => m.name)
    let db2 := (add_message db1 conv.id user_id "user" userContent userName).2
    let msgs := (if sysPrompt ≠ "" then [ChatMsg.system sysPrompt] else []) ++ reqMessages
    .ok (runGenerate script user_id conv msgs db2)

/-! ## Specification vocabulary for the theorems -/

/-- The fragments of a pass-1 chunk as the loop sees them (only `choices[0]`
is consulted; a missing `tool_calls` key contributes nothing). -/
def chunkFrags (ch : StreamChunk) : List ToolCallDelta :=
  match ch.choices.head? with
  | some choice => choice.delta.tool_calls.getD []
  | none => []

/-- The effective content delta of a chunk (`delta.get('content','') or ""`,
and chunks without choices contribute nothing). -/
def chunkContent (ch : StreamChunk) : String :=
  match ch.choices.head? with
  | some choice => choice.delta.content.getD ""
  | none => ""

/-- The fragments of a pass-1 stream in arrival order. -/
def pass1Frags (chunks : List StreamChunk) : List ToolCallDelta :=
  chunks.flatMap chunkFrags

/-- The fragments carrying a given buffer index, in arrival order. -/
def fragsFor (i : Nat) (frags : List ToolCallDelta) : List ToolCallDelta :=
  frags.filter (fun tc => tc.index = some i)

def pieceArg (tc : ToolCallDelta) : Option String := tc.function.bind (fun f => f.arguments)

def pieceName (tc : ToolCallDelta) : Option String := tc.function.bind (fun f => f.name)

/-- All `function.arguments` pieces carried by fragments with index `i`. -/
def argPieces (i : Nat) (frags : List ToolCallDelta) : List String :=
  (fragsFor i frags).filterMap pieceArg

/-- All `function.name` pieces carried by fragments with index `i`. -/
def namePieces (i : Nat) (frags : List ToolCallDelta) : List String :=
  (fragsFor i frags).filterMap pieceName

/-- All `id` pieces carried by fragments with index `i`. -/
def idPieces (i : Nat) (frags : List ToolCallDelta) : List String :=
  (fragsFor i frags).filterMap (fun tc => tc.id)

/-- The last non-empty string of a list, or `""` when there is none. -/
def lastNonEmpty (xs : List String) : String :=
  ((xs.filter (fun s => s ≠ "")).getLast?).getD ""

/-- Concatenation of a list of strings in order, with no separator. -/
def strJoin : List String → String
  | [] => ""
  | s :: rest => s ++ strJoin rest

/-- Folding the per-fragment update over a list of later fragments. -/
def applyUpdates (e : BufferEntry) (l : List ToolCallDelta) : BufferEntry :=
  l.foldl updateEntry e

/-- The buffer entry assembled from exactly the fragments of one index. -/
def assembleFor (l : List ToolCallDelta) : Option BufferEntry :=
  match l with
  | [] => none
  | t :: ts => some (applyUpdates (initialEntry t) ts)

/-- The overwrite discipline of `id` / `function.name`: a present non-empty
piece replaces the current value. -/
def updateField (cur : String) (piece : Option String) : String :=
  match piece with
  | some s => if s ≠ "" then s else cur
  | none => cur

/-- Indices in order of first appearance — the iteration order of a Python
dict whose keys were inserted in this sequence. -/
def firstOccurrences (l : List Nat) : List Nat :=
  l.foldl (fun acc i => if i ∈ acc then acc else acc ++ [i]) []

def isErrorFrame (e : SSEEvent) : Bool :=
  match e with
  | .errorFrame _ => true
  | _ => false

/-- The `AttributeError` message that escapes `generate` (see
`request_model_attr`). -/
def attrErrMsg : String := "AttributeError: 'ChatRequest' object has no attribute 'model'"

/-! ## Concrete inputs used by counterexamples and witnesses -/

def mkContentChunk (s : String) : StreamChunk :=
  { id := "chunk", object := "chat.completion.chunk", created := 1, model := "deepseek-chat",
    choices := [{ index := 0, delta := { content := some s, tool_calls := none },
                  finish_reason := none }] }

def mkToolChunk (tcs : List ToolCallDelta) : StreamChunk :=
  { id := "chunk", object := "chat.completion.chunk", created := 1, model := "deepseek-chat",
    choices := [{ index := 0, delta := { content := none, tool_calls := some tcs },
                  finish_reason := none }] }

def mkFrag (i : Nat) (id name args : Option String) : ToolCallDelta :=
  { index := some i, id := id, function := some { name := name, arguments := args } }

/-- A pass-1 stream detecting exactly one tool call (an unknown tool, which
still goes through execution and persistence), followed by a pass-2 answer. -/
def oneToolScript : Script :=
  { pass1 := [mkContentChunk "好的，",
              mkToolChunk [mkFrag 0 (some "call_1") (some "magic") (some "\x7b\x7d")]],
    pass1Err := none,
    pass2 := [mkContentChunk "完成"],
    pass2Err := none }

/-- Fragments for index 1 arrive before fragments for index 0. -/
def reversedScript : Script :=
  { pass1 := [mkToolChunk [mkFrag 1 (some "id-b") (some "tool-b") (some "x"),
                           mkFrag 0 (some "id-a") (some "tool-a") (some "y")]],
    pass1Err := none, pass2 := [], pass2Err := none }

/-- A content-only pass 1 whose concatenation carries surrounding
whitespace. -/
def paddedScript : Script :=
  { pass1 := [mkContentChunk " hi "], pass1Err := none, pass2 := [], pass2Err := none }

/-- A content-only pass 1 with two deltas and no tool calls. -/
def plainScript : Script :=
  { pass1 := [mkContentChunk "你好", mkContentChunk "，世界"], pass1Err := none,
    pass2 := [], pass2Err := none }

/-- Pass 1 raising the mapped 401 error after yielding nothing. -/
def authFailScript : Script :=
  { pass1 := [],
    pass1Err := some (handle_api_error 401
      (extract_error_message "\x7b\"error\": \x7b\"message\": \"bad key\"\x7d\x7d")),
    pass2 := [], pass2Err := none }

/-- Fragment sequence exercising interleaving, id retention and name
overwrite: index 0's arguments arrive in two pieces around an index-1
fragment; its id arrives only on the first fragment and its name on the
first and third with different values. -/
def assemblyFrags : List ToolCallDelta :=
  [mkFrag 0 (some "call_A") (some "first_name") (some "\x7b\"a\":"),
   mkFrag 1 (some "call_B") (some "other") (some "zzz"),
   mkFrag 0 none none (some " 1\x7d"),
   mkFrag 0 none (some "create_trip") none]

/-- A user with two active conversations: `convA` was updated at tick 10,
`convB` was created later but never updated (`updated_at` NULL, as inserted
by `create_conversation`). -/
def convA : ConvRec :=
  { id := "A", title := "ta", user_id := 1, model := "chat-model", is_active := true,
    created_at := 0, updated_at := some 10 }

def convB : ConvRec :=
  { id := "B", title := "tb", user_id := 1, model := "chat-model", is_active := true,
    created_at := 20, updated_at := none }

def twoConvDB : DB := { emptyDB with conversations := [convA, convB] }

/-- Well-formed `create_trip` parameters with dates in order. -/
def c4Params : CreateTripTool :=
  { title := "北京5日游", destination := "北京", start_date := "2025-06-01",
    end_date := "2025-06-10", total_budget := 5000 }

/-- The same parameters with the dates reversed. -/
def c4ParamsRev : CreateTripTool :=
  { title := "北京5日游", destination := "北京", start_date := "2025-06-10",
    end_date := "2025-06-01", total_budget := 5000 }

/-- The mocked 401 body of the spec's P7. -/
def c6Body : String := "\x7b\"error\": \x7b\"message\": \"bad key\"\x7d\x7d"

/-! ## Buffer assembly lemmas -/

theorem findEntry_append (buf : List (Nat × BufferEntry)) (j i : Nat) (e : BufferEntry) :
    findEntry (buf ++ [(j, e)]) i =
      match findEntry buf i with
      | some x => some x
      | none => if j = i then some e else none := by
  induction buf with
  | nil => simp [findEntry]
  | cons p rest ih =>
    obtain ⟨k, v⟩ := p
    by_cases h : k = i <;> simp [findEntry, h, ih]

theorem findEntry_setEntry (buf : List (Nat × BufferEntry)) (j i : Nat) (v : BufferEntry) :
    findEntry (setEntry buf j v) i =
      if i = j then (match findEntry buf j with | some _ => some v | none => none)
      else findEntry buf i := by
  induction buf with
  | nil =>
    simp only [setEntry, findEntry]
    split <;> rfl
  | cons p rest ih =>
    obtain ⟨k, w⟩ := p
    by_cases hkj : k = j
    · subst hkj
      by_cases hik : i = k
      · simp [setEntry, findEntry, hik]
      · have hki : ¬ k = i := fun h => hik h.symm
        simp [setEntry, findEntry, hik, hki]
    · by_cases hki : k = i
      · have hij : ¬ i = j := fun hh => hkj (by rw [hki, hh])
        simp [setEntry, findEntry, hkj, hki, hij]
      · simp [setEntry, findEntry, hkj, hki, ih]

theorem findEntry_ingestToolCall (buf : List (Nat × BufferEntry)) (tc : ToolCallDelta)
    (i : Nat) :
    findEntry (ingestToolCall buf tc) i =
      if tc.index = some i then
        some (match findEntry buf i with
              | none => initialEntry tc
              | some e => updateEntry e tc)
      else findEntry buf i := by
  unfold ingestToolCall
  cases h : tc.index with
  | none => simp
  | some j =>
    by_cases hji : j = i
    · subst hji
      cases hf : findEntry buf j <;>
        simp [hf, findEntry_append, findEntry_setEntry]
    · have hij : ¬ i = j := fun hh => hji hh.symm
      cases hf : findEntry buf j <;>
        cases hfi : findEntry buf i <;>
          simp [hf, hfi, findEntry_append, findEntry_setEntry, hji, hij]

theorem fragsFor_cons (i : Nat) (tc : ToolCallDelta) (rest : List ToolCallDelta) :
    fragsFor i (tc :: rest) =
      if tc.index = some i then tc :: fragsFor i rest else fragsFor i rest := by
  by_cases h : tc.index = some i <;> simp [fragsFor, h]

theorem findEntry_ingestToolCalls (frags : List ToolCallDelta) (buf : List (Nat × BufferEntry))
    (i : Nat) :
    findEntry (ingestToolCalls buf frags) i =
      match findEntry buf i with
      | some e => some (applyUpdates e (fragsFor i frags))
      | none => assembleFor (fragsFor i frags) := by
  induction frags generalizing buf with
  | nil =>
    cases hf : findEntry buf i <;>
      simp [ingestToolCalls, fragsFor, assembleFor, applyUpdates, hf]
  | cons tc rest ih =>
    have hstep : ingestToolCalls buf (tc :: rest) = ingestToolCalls (ingestToolCall buf tc) rest := rfl
    rw [hstep, ih, findEntry_ingestToolCall, fragsFor_cons]
    by_cases hidx : tc.index = some i
    · cases hf : findEntry buf i <;>
        simp [hidx, hf, assembleFor, applyUpdates]
    · simp [hidx]

theorem updateEntry_args (e : BufferEntry) (tc : ToolCallDelta) :
    (updateEntry e tc).function_arguments
      = e.function_arguments ++ (pieceArg tc).getD "" := by
  obtain ⟨idx, id?, fn?⟩ := tc
  cases fn? with
  | none =>
    cases id? with
    | none => simp [updateEntry, pieceArg]
    | some s => simp only [updateEntry, pieceArg]; split_ifs <;> simp
  | some f =>
    obtain ⟨n?, a?⟩ := f
    cases id? <;> cases n? <;> cases a? <;>
      (simp [updateEntry, pieceArg, Option.bind] <;> try split_ifs <;> simp_all)

theorem updateEntry_name (e : BufferEntry) (tc : ToolCallDelta) :
    (updateEntry e tc).function_name = updateField e.function_name (pieceName tc) := by
  obtain ⟨idx, id?, fn?⟩ := tc
  cases fn? with
  | none =>
    cases id? with
    | none => simp [updateEntry, pieceName, updateField]
    | some s => simp only [updateEntry, pieceName, updateField]; split_ifs <;> simp
  | some f =>
    obtain ⟨n?, a?⟩ := f
    cases id? <;> cases n? <;> cases a? <;>
      (simp [updateEntry, pieceName, updateField, Option.bind] <;> try split_ifs <;> simp_all)

theorem updateEntry_id (e : BufferEntry) (tc : ToolCallDelta) :
    (updateEntry e tc).id = updateField e.id tc.id := by
  obtain ⟨idx, id?, fn?⟩ := tc
  cases fn? with
  | none =>
    cases id? with
    | none => simp [updateEntry, updateField]
    | some s => simp only [updateEntry, updateField]; split_ifs <;> simp
  | some f =>
    obtain ⟨n?, a?⟩ := f
    cases id? <;> cases n? <;> cases a? <;>
      (simp [updateEntry, updateField, Option.bind] <;> try split_ifs <;> simp_all)

theorem applyUpdates_args (l : List ToolCallDelta) (e : BufferEntry) :
    (applyUpdates e l).function_arguments
      = e.function_arguments ++ strJoin (l.filterMap pieceArg) := by
  induction l generalizing e with
  | nil => simp [applyUpdates, strJoin]
  | cons tc rest ih =>
    have hstep : applyUpdates e (tc :: rest) = applyUpdates (updateEntry e tc) rest := rfl
    rw [hstep, ih, updateEntry_args]
    cases h : pieceArg tc <;> simp [h, strJoin, String.append_assoc]

/-- The pieces that actually take effect for `id`/`name`: present and
non-empty. -/
def effectivePieces (l : List (Option String)) : List String :=
  l.filterMap (fun p =>
    match p with
    | some s => if s ≠ "" then some s else none
    | none => none)

theorem getLast?_isSome_of_ne_nil (l : List String) (x : String) :
    ∃ y, (x :: l).getLast? = some y := by
  induction l generalizing x with
  | nil => exact ⟨x, rfl⟩
  | cons z zs ih =>
    obtain ⟨y, hy⟩ := ih z
    exact ⟨y, by rw [List.getLast?_cons_cons, hy]⟩

theorem getLast?_cons_getD (l : List String) (s d : String) :
    ((s :: l).getLast?).getD d = (l.getLast?).getD s := by
  cases l with
  | nil => simp
  | cons x xs =>
    obtain ⟨y, hy⟩ := getLast?_isSome_of_ne_nil xs x
    rw [List.getLast?_cons_cons, hy]
    simp

theorem foldl_updateField (l : List (Option String)) (cur : String) :
    l.foldl updateField cur = ((effectivePieces l).getLast?).getD cur := by
  induction l generalizing cur with
  | nil => simp [effectivePieces]
  | cons p rest ih =>
    cases p with
    | none => simp [effectivePieces, updateField, ih]
    | some s =>
      by_cases hs : s = ""
      · subst hs
        simp [effectivePieces, updateField, ih]
      · simp [effectivePieces, updateField, hs, ih, getLast?_cons_getD]

theorem applyUpdates_name (l : List ToolCallDelta) (e : BufferEntry) :
    (applyUpdates e l).function_name
      = ((effectivePieces (l.map pieceName)).getLast?).getD e.function_name := by
  rw [← foldl_updateField]
  induction l generalizing e with
  | nil => simp [applyUpdates]
  | cons tc rest ih =>
    have hstep : applyUpdates e (tc :: rest) = applyUpdates (updateEntry e tc) rest := rfl
    rw [hstep, ih, updateEntry_name]
    simp

theorem applyUpdates_id (l : List ToolCallDelta) (e : BufferEntry) :
    (applyUpdates e l).id
      = ((effectivePieces (l.map (fun tc => tc.id))).getLast?).getD e.id := by
  rw [← foldl_updateField]
  induction l generalizing e with
  | nil => simp [applyUpdates]
  | cons tc rest ih =>
    have hstep : applyUpdates e (tc :: rest) = applyUpdates (updateEntry e tc) rest := rfl
    rw [hstep, ih, updateEntry_id]
    simp

/-- `lastNonEmpty` over the pieces present in the fragments equals the
last-effective-piece fold seeded with the first fragment's stored value. -/
theorem effectivePieces_filterMap (l : List ToolCallDelta) (f : ToolCallDelta → Option String) :
    effectivePieces (l.map f) = (l.filterMap f).filter (fun s => s ≠ "") := by
  induction l with
  | nil => simp [effectivePieces]
  | cons tc rest ih =>
    cases h : f tc with
    | none =>
      simp only [effectivePieces, List.map_cons, List.filterMap_cons, h] at ih ⊢
      exact ih
    | some s =>
      by_cases hs : s = ""
      · simp only [effectivePieces, List.map_cons, List.filterMap_cons, h, hs] at ih ⊢
        simpa using ih
      · simp only [effectivePieces, List.map_cons, List.filterMap_cons, h] at ih ⊢
        simp only [hs, List.filter_cons]
        simpa [hs] using ih

theorem initialEntry_args (tc : ToolCallDelta) :
    (initialEntry tc).function_arguments = (pieceArg tc).getD "" := rfl

theorem initialEntry_name (tc : ToolCallDelta) :
    (initialEntry tc).function_name = (pieceName tc).getD "" := rfl

theorem initialEntry_id (tc : ToolCallDelta) :
    (initialEntry tc).id = tc.id.getD "" := rfl

/-- Last-non-empty characterisation of the update fold seeded with the first
fragment's stored piece; shared by the `name` and `id` conclusions. -/
theorem lastNonEmpty_seeded (p : Option String) (ps : List String) :
    ((ps.filter (fun s => s ≠ "")).getLast?).getD (p.getD "")
      = lastNonEmpty ((match p with | some s => s :: ps | none => ps)) := by
  cases p with
  | none => rfl
  | some s =>
    by_cases hs : s = ""
    · subst hs
      simp [lastNonEmpty, List.filter_cons]
    · simp only [lastNonEmpty, List.filter_cons, Option.getD_some]
      rw [if_pos (by simp [hs])]
      exact (getLast?_cons_getD _ s "").symm

/-- C2: for any ingested fragment sequence, each finalized buffer entry's
`arguments` is the in-order concatenation of that index's argument pieces,
and its `name`/`id` are the last non-empty piece (empty string when none),
independent of fragments for other indices. -/
theorem tool_call_assembly (frags : List ToolCallDelta) (i : Nat) (e : BufferEntry)
    (h : findEntry (ingestToolCalls [] frags) i = some e) :
    e.function_arguments = strJoin (argPieces i frags)
    ∧ e.function_name = lastNonEmpty (namePieces i frags)
    ∧ e.id = lastNonEmpty (idPieces i frags) := by
  have hfold := findEntry_ingestToolCalls frags [] i
  rw [h] at hfold
  simp only [findEntry] at hfold
  cases hl : fragsFor i frags with
  | nil =>
    rw [hl] at hfold
    simp [assembleFor] at hfold
  | cons t ts =>
    rw [hl] at hfold
    simp only [assembleFor, Option.some.injEq] at hfold
    subst hfold
    refine ⟨?_, ?_, ?_⟩
    · rw [applyUpdates_args, initialEntry_args]
      simp only [argPieces, hl, List.filterMap_cons]
      cases hp : pieceArg t with
      | none => simp [strJoin]
      | some s => simp [strJoin]
    · rw [applyUpdates_name, effectivePieces_filterMap, initialEntry_name]
      simp only [namePieces, hl, List.filterMap_cons]
      cases hp : pieceName t with
      | none => simpa using lastNonEmpty_seeded none (ts.filterMap pieceName)
      | some s => simpa using lastNonEmpty_seeded (some s) (ts.filterMap pieceName)
    · rw [applyUpdates_id, effectivePieces_filterMap, initialEntry_id]
      simp only [idPieces, hl, List.filterMap_cons]
      cases hp : t.id with
      | none => simpa using lastNonEmpty_seeded none (ts.filterMap (fun tc => tc.id))
      | some s => simpa using lastNonEmpty_seeded (some s) (ts.filterMap (fun tc => tc.id))

/-- Witness for `tool_call_assembly`: index 0's arguments arrive in two
pieces around an index-1 fragment, its id only on the first fragment, and
its name on the first and third fragments with different values. -/
theorem tool_call_assembly_witness :
    (⟨"call_A", "create_trip", "\x7b\"a\": 1\x7d"⟩ : BufferEntry).function_arguments
        = strJoin (argPieces 0 assemblyFrags)
    ∧ (⟨"call_A", "create_trip", "\x7b\"a\": 1\x7d"⟩ : BufferEntry).function_name
        = lastNonEmpty (namePieces 0 assemblyFrags)
    ∧ (⟨"call_A", "create_trip", "\x7b\"a\": 1\x7d"⟩ : BufferEntry).id
        = lastNonEmpty (idPieces 0 assemblyFrags) :=
  tool_call_assembly assemblyFrags 0 _ (by decide)

/-- C3: the tool executor returns every failure as a `success := false`
result (it is a total function of its inputs): an unknown tool name yields
the `未知的工具` result naming the tool, arguments that fail `json.loads`
yield the `参数解析失败` result, a failing parameter validation yields the
`工具执行失败` result — all three leaving the database untouched — and an
injected engine failure during the create path still yields a failure
result instead of an exception. -/
theorem execute_tool_call_error_handling (tool_call_id tool_name arguments : String)
    (user_id : Nat) (db : DB) :
    (tool_name ≠ "create_trip" →
      execute_tool_call tool_call_id tool_name arguments user_id db
        = ({ tool_name := tool_name, success := false, data := none,
             error := some ("未知的工具: " ++ tool_name) }, db))
    ∧ (∀ e, tool_name = "create_trip" → json_loads arguments = .error e →
        execute_tool_call tool_call_id tool_name arguments user_id db
          = ({ tool_name := tool_name, success := false, data := none,
               error := some ("参数解析失败: " ++ e) }, db))
    ∧ (∀ j e, tool_name = "create_trip" → json_loads arguments = .ok j →
        validateCreateTripTool j = .error e →
        execute_tool_call tool_call_id tool_name arguments user_id db
          = ({ tool_name := tool_name, success := false, data := none,
               error := some ("工具执行失败: " ++ e) }, db))
    ∧ (∀ rest, db.failSchedule = true :: rest →
        (execute_tool_call tool_call_id tool_name arguments user_id db).1.success = false) := by
  refine ⟨?_, ?_, ?_, ?_⟩
  · intro hname
    simp [execute_tool_call, hname]
  · intro e hname hparse
    simp [execute_tool_call, hname, hparse]
  · intro j e hname hparse hval
    simp [execute_tool_call, hname, hparse, hval]
  · intro rest hsched
    by_cases hname : tool_name = "create_trip"
    · cases hparse : json_loads arguments with
      | error e => simp [execute_tool_call, hname, hparse]
      | ok j =>
        cases hval : validateCreateTripTool j with
        | error e => simp [execute_tool_call, hname, hparse, hval]
        | ok params =>
          simp only [execute_tool_call, hname, hparse, hval, if_pos rfl]
          cases hsd : parse_date params.start_date with
          | none => simp [execute_create_trip, hsd]
          | some sd =>
            cases hed : parse_date params.end_date with
            | none => simp [execute_create_trip, hsd, hed]
            | some ed =>
              by_cases hgt : dateGt sd ed = true
              · simp [execute_create_trip, hsd, hed, hgt]
              · simp [execute_create_trip, hsd, hed, hgt, popFail, hsched]
    · simp [execute_tool_call, hname]

/-- Witness for `execute_tool_call_error_handling`: malformed JSON
arguments and an unknown tool name on the empty database. -/
theorem execute_tool_call_error_handling_witness :
    execute_tool_call "call_1" "create_trip" "\x7bnot json" 1 emptyDB
      = ({ tool_name := "create_trip", success := false, data := none,
           error := some ("参数解析失败: " ++
             "Expecting property name enclosed in double quotes") }, emptyDB)
    ∧ execute_tool_call "call_1" "mystery" "\x7b\x7d" 1 emptyDB
      = ({ tool_name := "mystery", success := false, data := none,
           error := some ("未知的工具: " ++ "mystery") }, emptyDB) :=
  ⟨(execute_tool_call_error_handling "call_1" "create_trip" "\x7bnot json" 1 emptyDB).2.1
      "Expecting property name enclosed in double quotes" rfl (by rfl),
   (execute_tool_call_error_handling "call_1" "mystery" "\x7b\x7d" 1 emptyDB).1
      (by decide)⟩

/-- C4 (code bug): with both dates well-formed and in order, the trip row is
committed, but `TripSchema.model_validate(trip)` then fails — the schema
requires `conversation_id`, which the `trips` table does not have — so the
call returns `success := false` with the `创建行程失败` error even though
exactly one trip row was created.  Reversed dates are, as the claim says,
rejected with no row. -/
theorem create_trip_valid_dates_code_bug :
    (execute_create_trip "call_1" c4Params 1 emptyDB).1.success = false
    ∧ (execute_create_trip "call_1" c4Params 1 emptyDB).1.error
        = some "创建行程失败: validation error for Trip: conversation_id Field required"
    ∧ (execute_create_trip "call_1" c4Params 1 emptyDB).2.trips.map
        (fun t => (t.user_id, t.title, t.destination, t.start_date, t.end_date,
          t.total_budget, t.actual_expense))
        = [(1, "北京5日游", "北京", ⟨2025, 6, 1⟩, ⟨2025, 6, 10⟩, (5000 : Rat), (0 : Rat))]
    ∧ execute_create_trip "call_1" c4ParamsRev 1 emptyDB
        = ({ tool_name := "create_trip", success := false, data := none,
             error := some "出发日期不能晚于结束日期" }, emptyDB) :=
  ⟨by rfl, by rfl, by rfl, by rfl⟩

/-- C6 (client side of the claim): every non-2xx upstream response raises a
typed `HTTPException` — 401 mapped to the credential error, 429 to the
rate-limit error, any status ≥ 500 to the 503 unavailable error, anything
else passed through — whose detail carries the message extracted from the
body: the `error.message` string when the body is JSON-shaped, the raw body
text when it is not JSON. -/
theorem upstream_error_mapping (status : Nat) (body : String)
    (h : ¬ (200 ≤ status ∧ status ≤ 299)) :
    chat_client_response_error status body
      = some (handle_api_error status (extract_error_message body))
    ∧ (handle_api_error status (extract_error_message body)).status_code
        = (if status = 401 then 401 else if status = 429 then 429
           else if status ≥ 500 then 503 else status)
    ∧ (∃ pre, (handle_api_error status (extract_error_message body)).detail
        = pre ++ extract_error_message body)
    ∧ (∀ fields efields m, json_loads body = .ok (.obj fields) →
        jGet fields "error" = some (.obj efields) →
        jGet efields "message" = some (.str m) →
        extract_error_message body = m)
    ∧ (∀ e, json_loads body = .error e → extract_error_message body = body) := by
  refine ⟨?_, ?_, ?_, ?_, ?_⟩
  · simp [chat_client_response_error, h]
  · unfold handle_api_error
    split_ifs <;> rfl
  · unfold handle_api_error
    split_ifs with h1 h2 h3
    · exact ⟨"API密钥无效: ", rfl⟩
    · exact ⟨"API请求频率限制: ", rfl⟩
    · exact ⟨"聊天服务暂时不可用: ", rfl⟩
    · exact ⟨"聊天API错误: ", rfl⟩
  · intro fields efields m hparse herr hmsg
    simp [extract_error_message, hparse, herr, hmsg, pyStrOfJson]
  · intro e hparse
    simp [extract_error_message, hparse]

/-! ## Conversation-store lemmas -/

theorem findConv_props (db : DB) (cid : String) (uid : Nat) (c : ConvRec)
    (h : findConv db cid uid = some c) : c.id = cid ∧ c.user_id = uid := by
  unfold findConv at h
  have hmem : c ∈ db.conversations.filter (fun x => x.id = cid && x.user_id = uid) := by
    cases hl : db.conversations.filter (fun x => x.id = cid && x.user_id = uid) with
    | nil => rw [hl] at h; cases h
    | cons a t =>
      rw [hl] at h
      simp only [List.head?_cons, Option.some.injEq] at h
      subst h
      exact List.mem_cons_self a t
  have := List.of_mem_filter hmem
  simpa using this

theorem filterHead_map_set (l : List ConvRec) (cid : String) (uid : Nat) (c c' : ConvRec)
    (h : (l.filter (fun x => x.id = cid && x.user_id = uid)).head? = some c)
    (hid : c'.id = cid) (huid : c'.user_id = uid) :
    ((l.map (fun x => if x.id = c'.id then c' else x)).filter
        (fun x => x.id = cid && x.user_id = uid)).head? = some c' := by
  induction l with
  | nil => simp at h
  | cons a t ih =>
    by_cases ha : a.id = cid
    · have hmap : (if a.id = c'.id then c' else a) = c' := by
        rw [hid]
        simp [ha]
      rw [List.map_cons, hmap, List.filter_cons]
      simp [hid, huid]
    · have hmap : (if a.id = c'.id then c' else a) = a := by
        rw [hid]
        simp [ha]
      rw [List.filter_cons] at h
      simp only [ha] at h
      rw [List.map_cons, hmap, List.filter_cons]
      simp only [ha]
      exact ih (by simpa using h)

theorem findConv_setConv (db : DB) (cid : String) (uid : Nat) (c c' : ConvRec)
    (h : findConv db cid uid = some c) (hid : c'.id = cid) (huid : c'.user_id = uid) :
    findConv (setConv db c') cid uid = some c' :=
  filterHead_map_set db.conversations cid uid c c' h hid huid

/-- Effect of a successful `add_message` (conversation present, non-blank
content, non-blank role, no scheduled engine failure): exactly one message
row is appended; trips, logs and the empty fail schedule are untouched; and
the conversation remains findable. -/
theorem add_message_ok (db : DB) (cid : String) (uid : Nat) (role content : String)
    (name : Option String) (c : ConvRec)
    (hconv : findConv db cid uid = some c)
    (hcontent : pyStrip content ≠ "")
    (hrole : role ≠ "")
    (hfail : db.failSchedule = []) :
    (add_message db cid uid role content name).1.isSome
    ∧ (add_message db cid uid role content name).2.messages
        = db.messages ++ [⟨cid, role, pyStrip content, name, 0⟩]
    ∧ (add_message db cid uid role content name).2.trips = db.trips
    ∧ (add_message db cid uid role content name).2.logs = db.logs
    ∧ (add_message db cid uid role content name).2.failSchedule = []
    ∧ ∃ c', findConv (add_message db cid uid role content name).2 cid uid = some c'
        ∧ c'.id = cid ∧ c'.user_id = uid := by
  obtain ⟨hcid, huid⟩ := findConv_props db cid uid c hconv
  unfold add_message
  rw [if_neg hcontent, hconv]
  simp only [popFail, hfail]
  rw [if_neg hrole]
  set conv' : ConvRec :=
    { c with
      title := if countMessages db cid = 0 ∧ role = "user" then
          (if content.length > 50 then pySlice content 50 ++ "..." else content)
        else c.title,
      updated_at := some db.clock } with hconv'
  refine ⟨rfl, ?_, ?_, ?_, ?_, ⟨conv', ?_, ?_, ?_⟩⟩
  · simp [setConv]
  · simp [setConv]
  · simp [setConv]
  · simp [setConv, hfail]
  · have : findConv (setConv db conv') cid uid = some conv' :=
      findConv_setConv db cid uid c conv' hconv (by simp [hconv', hcid]) (by simp [hconv', huid])
    unfold findConv at this ⊢
    simpa [setConv] using this
  · simp [hconv', hcid]
  · simp [hconv', huid]

/-- Effect of an `add_message` whose commit hits an injected engine
failure: the rollback leaves everything unchanged except that the failure
was consumed, and `None` is returned. -/
theorem add_message_fails (db : DB) (cid : String) (uid : Nat) (role content : String)
    (name : Option String) (c : ConvRec)
    (hconv : findConv db cid uid = some c)
    (hcontent : pyStrip content ≠ "")
    (rest : List Bool)
    (hfail : db.failSchedule = true :: rest) :
    add_message db cid uid role content name = (none, { db with failSchedule := rest }) := by
  unfold add_message
  rw [if_neg hcontent, hconv]
  simp [popFail, hfail]

/-- The tool executor never touches messages, conversations or logs, and
with no scheduled failure it leaves the schedule empty. -/
theorem execute_tool_call_effects (tool_call_id tool_name arguments : String)
    (user_id : Nat) (db : DB) (hfail : db.failSchedule = []) :
    (execute_tool_call tool_call_id tool_name arguments user_id db).2.messages = db.messages
    ∧ (execute_tool_call tool_call_id tool_name arguments user_id db).2.conversations
        = db.conversations
    ∧ (execute_tool_call tool_call_id tool_name arguments user_id db).2.logs = db.logs
    ∧ (execute_tool_call tool_call_id tool_name arguments user_id db).2.failSchedule = [] := by
  by_cases hname : tool_name = "create_trip"
  · cases hparse : json_loads arguments with
    | error e => simp [execute_tool_call, hname, hparse, hfail]
    | ok j =>
      cases hval : validateCreateTripTool j with
      | error e => simp [execute_tool_call, hname, hparse, hval, hfail]
      | ok params =>
        simp only [execute_tool_call, hname, hparse, hval, if_pos rfl]
        cases hsd : parse_date params.start_date with
        | none => simp [execute_create_trip, hsd, hfail]
        | some sd =>
          cases hed : parse_date params.end_date with
          | none => simp [execute_create_trip, hsd, hed, hfail]
          | some ed =>
            by_cases hgt : dateGt sd ed = true
            · simp [execute_create_trip, hsd, hed, hgt, hfail]
            · cases hts : tripSchemaValidate
                { id := "trip-" ++ toString db.nextId, user_id := user_id,
                  title := params.title, destination := params.destination,
                  start_date := sd, end_date := ed, total_budget := params.total_budget,
                  actual_expense := 0, created_at := db.clock } with
              | error e => simp [execute_create_trip, hsd, hed, hgt, popFail, hfail, hts]
              | ok u => simp [execute_create_trip, hsd, hed, hgt, popFail, hfail, hts]
  · simp [execute_tool_call, hname, hfail]

/-! ## Pass-processing lemmas -/

theorem pass1Step_full_content (st : Pass1State) (ch : StreamChunk) :
    (pass1Step st ch).full_content = st.full_content ++ chunkContent ch := by
  unfold pass1Step chunkContent
  cases ch.choices.head? with
  | none => simp
  | some choice =>
    by_cases hc : choice.delta.content.getD "" = ""
    · simp [hc]
    · simp [hc]

theorem pass1Step_buffer (st : Pass1State) (ch : StreamChunk) :
    (pass1Step st ch).buffer = ingestToolCalls st.buffer (chunkFrags ch) := by
  unfold pass1Step chunkFrags
  cases ch.choices.head? with
  | none => simp [ingestToolCalls]
  | some choice =>
    cases htc : choice.delta.tool_calls with
    | none =>
      by_cases hc : choice.delta.content.getD "" = "" <;> simp [hc, htc, ingestToolCalls]
    | some tcs =>
      by_cases hc : choice.delta.content.getD "" = "" <;> simp [hc, htc]

theorem processPass1_full_content_aux (chunks : List StreamChunk) :
    ∀ st : Pass1State, (chunks.foldl pass1Step st).full_content
      = st.full_content ++ strJoin (chunks.map chunkContent) := by
  induction chunks with
  | nil => intro st; simp [strJoin]
  | cons ch rest ih =>
    intro st
    have : (ch :: rest).foldl pass1Step st = rest.foldl pass1Step (pass1Step st ch) := rfl
    rw [this, ih, pass1Step_full_content]
    simp [strJoin, String.append_assoc]

/-- The accumulated `full_content` is the concatenation, in arrival order,
of all effective content deltas of the pass-1 chunks. -/
theorem processPass1_full_content (chunks : List StreamChunk) :
    (processPass1 chunks).full_content = strJoin (chunks.map chunkContent) := by
  have := processPass1_full_content_aux chunks { full_content := "", buffer := [], events := [] }
  simpa [processPass1] using this

theorem processPass1_buffer_aux (chunks : List StreamChunk) :
    ∀ st : Pass1State, (chunks.foldl pass1Step st).buffer
      = ingestToolCalls st.buffer (pass1Frags chunks) := by
  induction chunks with
  | nil => intro st; simp [pass1Frags, ingestToolCalls]
  | cons ch rest ih =>
    intro st
    have hstep : (ch :: rest).foldl pass1Step st = rest.foldl pass1Step (pass1Step st ch) := rfl
    rw [hstep, ih, pass1Step_buffer]
    simp [pass1Frags, ingestToolCalls, List.foldl_append]

/-- The final buffer is exactly the ingestion of all pass-1 fragments in
arrival order. -/
theorem processPass1_buffer (chunks : List StreamChunk) :
    (processPass1 chunks).buffer = ingestToolCalls [] (pass1Frags chunks) := by
  have := processPass1_buffer_aux chunks { full_content := "", buffer := [], events := [] }
  simpa [processPass1] using this

theorem pass1Step_events (st : Pass1State) (ch : StreamChunk) :
    (pass1Step st ch).events = st.events ++
      (match ch.choices.head? with
       | none => [SSEEvent.keepAlive]
       | some choice =>
         (if choice.delta.content.getD "" ≠ "" then [SSEEvent.chunk ch] else [])
           ++ [SSEEvent.keepAlive]) := by
  unfold pass1Step
  cases ch.choices.head? with
  | none => simp
  | some choice =>
    by_cases hc : choice.delta.content.getD "" = "" <;> simp [hc]

theorem pass1Step_events_shape (st : Pass1State) (ch : StreamChunk) :
    ∀ e ∈ (pass1Step st ch).events,
      e ∈ st.events ∨ (∃ c, e = SSEEvent.chunk c) ∨ e = SSEEvent.keepAlive := by
  intro e he
  rw [pass1Step_events] at he
  rcases List.mem_append.mp he with h | h
  · exact Or.inl h
  · cases hh : ch.choices.head? with
    | none =>
      rw [hh] at h
      simp only [List.mem_singleton] at h
      exact Or.inr (Or.inr h)
    | some choice =>
      rw [hh] at h
      rcases List.mem_append.mp h with h2 | h2
      · by_cases hc : choice.delta.content.getD "" = ""
        · simp [hc] at h2
        · simp only [hc, ne_eq, not_false_eq_true, if_true, List.mem_singleton] at h2
          exact Or.inr (Or.inl ⟨ch, h2⟩)
      · simp only [List.mem_singleton] at h2
        exact Or.inr (Or.inr h2)

/-- Pass-1 events are only forwarded chunks and keep-alives: no error frame
and no terminal marker is ever emitted inside the pass-1 loop. -/
theorem processPass1_events_shape (chunks : List StreamChunk) :
    ∀ e ∈ (processPass1 chunks).events,
      (∃ c, e = SSEEvent.chunk c) ∨ e = SSEEvent.keepAlive := by
  have aux : ∀ st : Pass1State,
      (∀ e ∈ st.events, (∃ c, e = SSEEvent.chunk c) ∨ e = SSEEvent.keepAlive) →
      ∀ e ∈ (chunks.foldl pass1Step st).events,
        (∃ c, e = SSEEvent.chunk c) ∨ e = SSEEvent.keepAlive := by
    induction chunks with
    | nil => intro st hst; exact hst
    | cons ch rest ih =>
      intro st hst
      refine ih (pass1Step st ch) ?_
      intro e he
      rcases pass1Step_events_shape st ch e he with h | h | h
      · exact hst e h
      · exact Or.inl h
      · exact Or.inr h
  intro e he
  exact aux { full_content := "", buffer := [], events := [] } (by simp) e he

theorem pickLatest_mem_aux (cs : List ConvRec) (init : Option ConvRec) (c : ConvRec)
    (h : cs.foldl
      (fun best x =>
        match best with
        | none => some x
        | some b => if updGt x.updated_at b.updated_at then some x else some b)
      init = some c) :
    c ∈ cs ∨ init = some c := by
  induction cs generalizing init with
  | nil => exact Or.inr h
  | cons a t ih =>
    rcases ih _ h with hmem | hstep
    · exact Or.inl (List.mem_cons_of_mem a hmem)
    · cases init with
      | none =>
        have hac : a = c := Option.some.inj hstep
        exact Or.inl (by rw [← hac]; exact List.mem_cons_self a t)
      | some b =>
        have hstep' : (if updGt a.updated_at b.updated_at = true then some a else some b)
            = some c := hstep
        by_cases hgt : updGt a.updated_at b.updated_at = true
        · rw [if_pos hgt] at hstep'
          have hac : a = c := Option.some.inj hstep'
          exact Or.inl (by rw [← hac]; exact List.mem_cons_self a t)
        · rw [if_neg hgt] at hstep'
          exact Or.inr hstep'

theorem pickLatest_mem (cs : List ConvRec) (c : ConvRec) (h : pickLatest cs = some c) :
    c ∈ cs := by
  rcases pickLatest_mem_aux cs none c h with hmem | hinit
  · exact hmem
  · cases hinit

theorem filter_head_exists {α : Type} (l : List α) (p : α → Bool) (a : α)
    (ha : a ∈ l) (hp : p a = true) : ∃ b, (l.filter p).head? = some b := by
  have hmem : a ∈ l.filter p := List.mem_filter.mpr ⟨ha, hp⟩
  cases hl : l.filter p with
  | nil => rw [hl] at hmem; cases hmem
  | cons x t => exact ⟨x, rfl⟩

/-- `get_or_create_conversation` never touches messages, trips, logs or the
fail schedule, and afterwards the returned conversation's id resolves for
this user. -/
theorem get_or_create_effects (db : DB) (uid : Nat) (title : String) :
    (get_or_create_conversation db uid title).2.messages = db.messages
    ∧ (get_or_create_conversation db uid title).2.trips = db.trips
    ∧ (get_or_create_conversation db uid title).2.logs = db.logs
    ∧ (get_or_create_conversation db uid title).2.failSchedule = db.failSchedule
    ∧ ∃ c0, findConv (get_or_create_conversation db uid title).2
        (get_or_create_conversation db uid title).1.id uid = some c0 := by
  cases hp : pickLatest (db.conversations.filter (fun c => c.user_id = uid && c.is_active)) with
  | some c =>
    have hgc : get_or_create_conversation db uid title = (c, db) := by
      simp only [get_or_create_conversation, hp]
    rw [hgc]
    have hmem := pickLatest_mem _ c hp
    have hprops := List.of_mem_filter hmem
    have hin : c ∈ db.conversations := List.mem_of_mem_filter hmem
    simp only [Bool.and_eq_true, decide_eq_true_eq] at hprops
    refine ⟨rfl, rfl, rfl, rfl, ?_⟩
    unfold findConv
    exact filter_head_exists db.conversations _ c hin (by simp [hprops.1, hprops.2])
  | none =>
    have hgc : get_or_create_conversation db uid title
        = (newConversation db uid title "chat-model",
           insertConversation db (newConversation db uid title "chat-model")) := by
      simp only [get_or_create_conversation, hp]
    rw [hgc]
    refine ⟨rfl, rfl, rfl, rfl, ?_⟩
    unfold findConv
    refine filter_head_exists _ _ (newConversation db uid title "chat-model") ?_ ?_
    · simp [insertConversation]
    · simp [newConversation]

/-- The success tail always escapes with the `request.model` AttributeError:
no `[DONE]`, no 200 log. -/
theorem successTail_eq (uid : Nat) (ev : List SSEEvent) (db : DB)
    (p2 : Option (List ChatMsg)) (tr : List ToolInvocation) :
    successTail uid ev db p2 tr
      = { events := ev, db := db, pass2Sent := p2, toolTrace := tr,
          escaped := some attrErrMsg } := rfl

/-- The failure tail always escapes with the `request.model` AttributeError:
no error frame, no 500 log. -/
theorem failTail_eq (uid : Nat) (ev : List SSEEvent) (db : DB)
    (p2 : Option (List ChatMsg)) (tr : List ToolInvocation) (caught : String) :
    failTail uid ev db p2 tr caught
      = { events := ev, db := db, pass2Sent := p2, toolTrace := tr,
          escaped := some attrErrMsg } := rfl

theorem add_message_blank (db : DB) (cid : String) (uid : Nat) (role content : String)
    (name : Option String) (h : pyStrip content = "") :
    add_message db cid uid role content name = (none, db) := by
  unfold add_message
  rw [if_pos h]

theorem pyStrip_empty : pyStrip "" = "" := rfl

/-- C7 (code bug): when pass 1 raises, the `except` handler's own
`create_log` call evaluates `request.model` and re-raises, so the turn
records NO APILog entry and emits NO SSE error frame: the generator aborts
with the AttributeError right after the events already forwarded (all of
them content chunks or keep-alives — in particular no `[DONE]`), and the
partially accumulated content is not persisted (the database is returned
completely untouched). -/
theorem failed_path_no_log_no_error_frame (script : Script) (e : PyError) (uid : Nat)
    (conv : ConvRec) (msgs : List ChatMsg) (db : DB)
    (h : script.pass1Err = some e) :
    runGenerate script uid conv msgs db =
      { events := (processPass1 script.pass1).events, db := db, pass2Sent := none,
        toolTrace := [], escaped := some attrErrMsg }
    ∧ ∀ ev ∈ (processPass1 script.pass1).events,
        (∃ c, ev = SSEEvent.chunk c) ∨ ev = SSEEvent.keepAlive := by
  constructor
  · unfold runGenerate afterPass1
    rw [h]
    rfl
  · exact processPass1_events_shape script.pass1

/-- Witness for `failed_path_no_log_no_error_frame`: the mocked 401 pass-1
failure against the empty database. -/
theorem failed_path_no_log_no_error_frame_witness :
    runGenerate authFailScript 1 convA [] emptyDB =
      { events := (processPass1 authFailScript.pass1).events, db := emptyDB,
        pass2Sent := none, toolTrace := [], escaped := some attrErrMsg }
    ∧ ∀ ev ∈ (processPass1 authFailScript.pass1).events,
        (∃ c, ev = SSEEvent.chunk c) ∨ ev = SSEEvent.keepAlive :=
  failed_path_no_log_no_error_frame authFailScript
    (handle_api_error 401 (extract_error_message c6Body)) 1 convA [] emptyDB rfl

/-- C5 (amended): a pass-1 stream that buffers no tool calls makes no
second upstream call, executes no tools, and — after the user message —
persists exactly one assistant message whose content is the *stripped*
concatenation of the content deltas; when that concatenation strips to the
empty string nothing is persisted beyond the user message.  (The claim as
frozen said the persisted content equals the raw concatenation; the store
strips it — see the counterexample.) -/
theorem no_tools_single_message_amended (script : Script) (uid : Nat)
    (reqMessages : List ChatMsg) (sysPrompt : String) (db : DB)
    (m0 mL : ChatMsg) (t0 uc : String)
    (hhead : reqMessages.head? = some m0) (ht : m0.content = some t0)
    (hlast : reqMessages.getLast? = some mL) (hcl : mL.content = some uc)
    (huc : pyStrip uc ≠ "")
    (h1 : script.pass1Err = none)
    (hbuf : (processPass1 script.pass1).buffer = [])
    (hfail : db.failSchedule = []) :
    ∃ r, runChatStream script uid reqMessages sysPrompt db = .ok r
      ∧ r.pass2Sent = none
      ∧ r.toolTrace = []
      ∧ (processPass1 script.pass1).full_content = strJoin (script.pass1.map chunkContent)
      ∧ (pyStrip (processPass1 script.pass1).full_content ≠ "" →
          r.db.messages = db.messages
            ++ [⟨(get_or_create_conversation db uid (pySlice t0 50)).1.id, "user",
                 pyStrip uc, mL.name, 0⟩,
                ⟨(get_or_create_conversation db uid (pySlice t0 50)).1.id, "assistant",
                 pyStrip (processPass1 script.pass1).full_content, some "assistant", 0⟩])
      ∧ (pyStrip (processPass1 script.pass1).full_content = "" →
          r.db.messages = db.messages
            ++ [⟨(get_or_create_conversation db uid (pySlice t0 50)).1.id, "user",
                 pyStrip uc, mL.name, 0⟩]) := by
  obtain ⟨hm, htr, hlg, hfs, c0, hc0⟩ := get_or_create_effects db uid (pySlice t0 50)
  set gc := get_or_create_conversation db uid (pySlice t0 50) with hgc
  obtain ⟨husome, humsg, hutr, hulg, hufs, c1, hc1, hc1id, hc1uid⟩ :=
    add_message_ok gc.2 gc.1.id uid "user" uc mL.name c0 hc0 huc (by decide)
      (by rw [hfs, hfail])
  set db2 := (add_message gc.2 gc.1.id uid "user" uc mL.name).2 with hdb2
  have hrun : runChatStream script uid reqMessages sysPrompt db
      = .ok (runGenerate script uid gc.1
          ((if sysPrompt ≠ "" then [ChatMsg.system sysPrompt] else []) ++ reqMessages) db2) := by
    unfold runChatStream
    rw [hhead, hlast]
    simp only [ht, hcl, Option.map, Option.bind, Option.getD]
  set fc := (processPass1 script.pass1).full_content with hfc
  have hgen : runGenerate script uid gc.1
      ((if sysPrompt ≠ "" then [ChatMsg.system sysPrompt] else []) ++ reqMessages) db2
      = successTail uid (processPass1 script.pass1).events
          (if fc ≠ "" then
            (add_message db2 gc.1.id uid "assistant" fc (some "assistant")).2
          else db2) none [] := by
    unfold runGenerate afterPass1
    rw [h1, hbuf]
  refine ⟨_, by rw [hrun, hgen], ?_, ?_, ?_, ?_, ?_⟩
  · rw [successTail_eq]
  · rw [successTail_eq]
  · exact processPass1_full_content script.pass1
  · intro hnz
    rw [successTail_eq]
    have hfcne : fc ≠ "" := by
      intro hz
      rw [hz] at hnz
      exact hnz pyStrip_empty
    rw [if_pos hfcne]
    obtain ⟨hasome, hamsg, hatr, halg, hafs, c2, hc2, hc2id, hc2uid⟩ :=
      add_message_ok db2 gc.1.id uid "assistant" fc (some "assistant") c1 hc1 hnz
        (by decide) hufs
    simp only [hamsg, humsg, hm]
    simp [List.append_assoc]
  · intro hz
    rw [successTail_eq]
    by_cases hfcz : fc = ""
    · rw [if_neg (by simpa using hfcz)]
      simp only [humsg, hm]
    · rw [if_pos hfcz]
      rw [add_message_blank db2 gc.1.id uid "assistant" fc (some "assistant") hz]
      simp only [humsg, hm]

/-- Counterexample for C5 as frozen: a single content delta `" hi "` is
persisted as `"hi"` — the store strips the content, so the persisted
assistant message does not equal the concatenation of the content deltas. -/
theorem no_tools_single_message_counterexample :
    (match runChatStream paddedScript 1 [ChatMsg.user "hi"] "" emptyDB with
     | .ok r => r.db.messages.map (fun m => (m.role, m.content))
     | .error _ => []) = [("user", "hi"), ("assistant", "hi")]
    ∧ (processPass1 paddedScript.pass1).full_content = " hi "
    ∧ (" hi " : String) ≠ "hi" :=
  ⟨by rfl, by rfl, by decide⟩

/-- Witness for `no_tools_single_message_amended`: the two-delta content
stream against the empty database. -/
theorem no_tools_single_message_amended_witness :
    ∃ r, runChatStream plainScript 1 [ChatMsg.user "hi"] "" emptyDB = .ok r
      ∧ r.pass2Sent = none
      ∧ r.toolTrace = []
      ∧ (processPass1 plainScript.pass1).full_content
          = strJoin (plainScript.pass1.map chunkContent)
      ∧ (pyStrip (processPass1 plainScript.pass1).full_content ≠ "" →
          r.db.messages = emptyDB.messages
            ++ [⟨(get_or_create_conversation emptyDB 1 (pySlice "hi" 50)).1.id, "user",
                 pyStrip "hi", (ChatMsg.user "hi").name, 0⟩,
                ⟨(get_or_create_conversation emptyDB 1 (pySlice "hi" 50)).1.id, "assistant",
                 pyStrip (processPass1 plainScript.pass1).full_content, some "assistant", 0⟩])
      ∧ (pyStrip (processPass1 plainScript.pass1).full_content = "" →
          r.db.messages = emptyDB.messages
            ++ [⟨(get_or_create_conversation emptyDB 1 (pySlice "hi" 50)).1.id, "user",
                 pyStrip "hi", (ChatMsg.user "hi").name, 0⟩]) :=
  no_tools_single_message_amended plainScript 1 [ChatMsg.user "hi"] "" emptyDB
    (ChatMsg.user "hi") (ChatMsg.user "hi") "hi" "hi" rfl rfl rfl rfl (by decide) rfl
    (by rfl) rfl

/-- C9 (amended): a persistence failure while appending the final assistant
message is swallowed inside `add_message` (rollback, warning print, `None`
return) and the orchestrator never inspects the result: the emitted events,
the log table and the generator's ending are identical to the
successful-append run — only the message row is missing.  No append
failure, early or final, is escalated to a FAILED path.  (Independently,
neither run reaches the 200-log/`[DONE]` tail, because the tail evaluates
`request.model` and aborts.) -/
theorem final_append_failure_ignored_amended (script : Script) (uid : Nat)
    (conv : ConvRec) (msgs : List ChatMsg) (db : DB) (c : ConvRec)
    (hconv : findConv db conv.id uid = some c)
    (h1 : script.pass1Err = none)
    (hbuf : (processPass1 script.pass1).buffer = [])
    (hfc : pyStrip (processPass1 script.pass1).full_content ≠ "")
    (hfail : db.failSchedule = []) :
    (runGenerate script uid conv msgs { db with failSchedule := [true] }).events
        = (runGenerate script uid conv msgs db).events
    ∧ (runGenerate script uid conv msgs { db with failSchedule := [true] }).escaped
        = (runGenerate script uid conv msgs db).escaped
    ∧ (runGenerate script uid conv msgs { db with failSchedule := [true] }).db.logs = db.logs
    ∧ (runGenerate script uid conv msgs db).db.logs = db.logs
    ∧ (runGenerate script uid conv msgs { db with failSchedule := [true] }).db.messages
        = db.messages
    ∧ (runGenerate script uid conv msgs db).db.messages
        = db.messages ++ [⟨conv.id, "assistant",
            pyStrip (processPass1 script.pass1).full_content, some "assistant", 0⟩] := by
  set fc := (processPass1 script.pass1).full_content with hfcdef
  have hfcne : fc ≠ "" := by
    intro hz
    rw [hz] at hfc
    exact hfc pyStrip_empty
  have hconvF : findConv { db with failSchedule := [true] } conv.id uid = some c := hconv
  have hgenF : runGenerate script uid conv msgs { db with failSchedule := [true] }
      = successTail uid (processPass1 script.pass1).events
          (add_message { db with failSchedule := [true] } conv.id uid "assistant" fc
            (some "assistant")).2 none [] := by
    unfold runGenerate afterPass1
    rw [h1, hbuf]
    simp only [← hfcdef, hfcne, ne_eq, not_false_eq_true, if_true]
  have hgenO : runGenerate script uid conv msgs db
      = successTail uid (processPass1 script.pass1).events
          (add_message db conv.id uid "assistant" fc (some "assistant")).2 none [] := by
    unfold runGenerate afterPass1
    rw [h1, hbuf]
    simp only [← hfcdef, hfcne, ne_eq, not_false_eq_true, if_true]
  have hF := add_message_fails { db with failSchedule := [true] } conv.id uid "assistant" fc
    (some "assistant") c hconvF hfc [] rfl
  obtain ⟨hosome, homsg, hotr, holg, hofs, c2, hc2, hc2id, hc2uid⟩ :=
    add_message_ok db conv.id uid "assistant" fc (some "assistant") c hconv hfc
      (by decide) hfail
  rw [hgenF, hgenO, successTail_eq, successTail_eq, hF]
  exact ⟨rfl, rfl, rfl, holg, rfl, homsg⟩

/-- C9 counterexample: the engine fails exactly on the final assistant
append (schedule `[false, true]`: the user append succeeds, the final
append fails).  The claim says this is escalated — a 500 APILog entry and
an SSE error frame instead of `[DONE]` — but the run records no log entry
at all, emits no error frame, and simply loses the message. -/
theorem final_append_failure_counterexample :
    (match runChatStream plainScript 1 [ChatMsg.user "hi"] ""
        { emptyDB with failSchedule := [false, true] } with
     | .ok r => (r.db.logs, r.events.filter isErrorFrame,
         r.db.messages.map (fun m => m.role))
     | .error _ => ([{ user_id := 0, endpoint := "", model := none, status_code := 0,
                       error_message := none }], [], []))
      = ([], [], ["user"]) := by rfl

/-- Witness for `final_append_failure_ignored_amended` on a database holding
one findable conversation. -/
theorem final_append_failure_ignored_amended_witness :
    (runGenerate plainScript 1 convA [] { twoConvDB with failSchedule := [true] }).events
        = (runGenerate plainScript 1 convA [] twoConvDB).events
    ∧ (runGenerate plainScript 1 convA [] { twoConvDB with failSchedule := [true] }).escaped
        = (runGenerate plainScript 1 convA [] twoConvDB).escaped
    ∧ (runGenerate plainScript 1 convA []
        { twoConvDB with failSchedule := [true] }).db.logs = twoConvDB.logs
    ∧ (runGenerate plainScript 1 convA [] twoConvDB).db.logs = twoConvDB.logs
    ∧ (runGenerate plainScript 1 convA []
        { twoConvDB with failSchedule := [true] }).db.messages = twoConvDB.messages
    ∧ (runGenerate plainScript 1 convA [] twoConvDB).db.messages
        = twoConvDB.messages ++ [⟨convA.id, "assistant",
            pyStrip (processPass1 plainScript.pass1).full_content, some "assistant", 0⟩] :=
  final_append_failure_ignored_amended plainScript 1 convA [] twoConvDB convA
    (by rfl) rfl (by rfl) (by decide) rfl

theorem runToolPhase_trace_aux (buf : List (Nat × BufferEntry)) (uid : Nat) (cid : String) :
    ∀ st : ToolPhaseState,
      (buf.foldl (toolPhaseStep uid cid) st).trace
        = st.trace ++ (buf.filter (fun p => p.2.function_name ≠ "")).map
            (fun p => ⟨p.2.id, p.2.function_name, p.2.function_arguments⟩) := by
  induction buf with
  | nil => intro st; simp
  | cons p rest ih =>
    intro st
    have hstep : (p :: rest).foldl (toolPhaseStep uid cid) st
        = rest.foldl (toolPhaseStep uid cid) (toolPhaseStep uid cid st p) := rfl
    rw [hstep, ih]
    by_cases hname : p.2.function_name = ""
    · simp [toolPhaseStep, hname, List.filter_cons]
    · simp [toolPhaseStep, hname, List.filter_cons]

/-- The trace of tool-executor invocations is exactly the buffer in
insertion order, restricted to entries with a non-empty name. -/
theorem runToolPhase_trace (buf : List (Nat × BufferEntry)) (uid : Nat) (cid : String)
    (db : DB) :
    (runToolPhase buf uid cid db).trace
      = (buf.filter (fun p => p.2.function_name ≠ "")).map
          (fun p => ⟨p.2.id, p.2.function_name, p.2.function_arguments⟩) := by
  have := runToolPhase_trace_aux buf uid cid { db := db, results := [], trace := [] }
  simpa [runToolPhase] using this

theorem findEntry_none_iff (buf : List (Nat × BufferEntry)) (i : Nat) :
    findEntry buf i = none ↔ i ∉ buf.map Prod.fst := by
  induction buf with
  | nil => simp [findEntry]
  | cons p rest ih =>
    obtain ⟨k, v⟩ := p
    by_cases hk : k = i
    · simp [findEntry, hk]
    · have hik : ¬ i = k := fun h => hk h.symm
      rw [show findEntry ((k, v) :: rest) i = findEntry rest i by simp [findEntry, hk]]
      rw [ih, List.map_cons]
      simp [List.mem_cons, hik]

theorem setEntry_keys (buf : List (Nat × BufferEntry)) (i : Nat) (e : BufferEntry) :
    (setEntry buf i e).map Prod.fst = buf.map Prod.fst := by
  induction buf with
  | nil => rfl
  | cons p rest ih =>
    obtain ⟨k, v⟩ := p
    by_cases hk : k = i <;> simp [setEntry, hk, ih]

theorem ingest_keys_aux (frags : List ToolCallDelta) :
    ∀ buf : List (Nat × BufferEntry),
      (ingestToolCalls buf frags).map Prod.fst
        = (frags.filterMap ToolCallDelta.index).foldl
            (fun acc i => if i ∈ acc then acc else acc ++ [i]) (buf.map Prod.fst) := by
  induction frags with
  | nil => intro buf; simp [ingestToolCalls]
  | cons tc rest ih =>
    intro buf
    have hstep : ingestToolCalls buf (tc :: rest)
        = ingestToolCalls (ingestToolCall buf tc) rest := rfl
    rw [hstep, ih]
    cases hidx : tc.index with
    | none => simp [ingestToolCall, hidx, List.filterMap_cons, ToolCallDelta.index]
    | some i =>
      simp only [List.filterMap_cons, hidx]
      cases hf : findEntry buf i with
      | none =>
        have hnot : i ∉ buf.map Prod.fst := (findEntry_none_iff buf i).mp hf
        simp [ingestToolCall, hidx, hf, hnot]
      | some e =>
        have hin : i ∈ buf.map Prod.fst := by
          by_contra hno
          rw [← findEntry_none_iff buf i] at hno
          rw [hf] at hno
          cases hno
        simp [ingestToolCall, hidx, hf, setEntry_keys, hin]

/-- The buffer's key sequence is the fragments' indices in order of first
appearance — the insertion order of the Python dict. -/
theorem ingest_keys (frags : List ToolCallDelta) :
    (ingestToolCalls [] frags).map Prod.fst
      = firstOccurrences (frags.filterMap ToolCallDelta.index) := by
  have := ingest_keys_aux frags []
  simpa [firstOccurrences] using this

/-- C8 (amended): the assembled tool calls are consumed — executed and
persisted — in the **insertion order** of the buffer, i.e. the order of
first appearance of their indices in the fragment stream (Python dict
iteration order), with empty-name entries skipped; an empty buffer yields
no tool phase and no second upstream call.  The frozen claim's "ascending
index order" only coincides with this when indices first appear in
ascending order — see the counterexample. -/
theorem tool_consumption_order_amended (script : Script) (uid : Nat) (conv : ConvRec)
    (msgs : List ChatMsg) (db : DB)
    (h1 : script.pass1Err = none) :
    (runGenerate script uid conv msgs db).toolTrace
      = ((processPass1 script.pass1).buffer.filter
            (fun p => p.2.function_name ≠ "")).map
          (fun p => ⟨p.2.id, p.2.function_name, p.2.function_arguments⟩)
    ∧ ((processPass1 script.pass1).buffer = [] →
        (runGenerate script uid conv msgs db).pass2Sent = none
        ∧ (runGenerate script uid conv msgs db).toolTrace = [])
    ∧ (∀ frags : List ToolCallDelta,
        (ingestToolCalls [] frags).map Prod.fst
          = firstOccurrences (frags.filterMap ToolCallDelta.index)) := by
  refine ⟨?_, ?_, fun frags => ingest_keys frags⟩
  · unfold runGenerate afterPass1
    rw [h1]
    cases hb : (processPass1 script.pass1).buffer with
    | nil => simp [successTail_eq]
    | cons b bs =>
      cases h2 : script.pass2Err with
      | some e =>
        simp only [failTail_eq]
        rw [← hb]
        have := runToolPhase_trace (b :: bs) uid conv.id db
        rw [hb]
        simpa using this
      | none =>
        simp only [successTail_eq]
        rw [← hb]
        have := runToolPhase_trace (b :: bs) uid conv.id db
        rw [hb]
        simpa using this
  · intro hb
    unfold runGenerate afterPass1
    rw [h1, hb]
    simp [successTail_eq]

/-- C8 counterexample: fragments for index 1 arrive before fragments for
index 0; the executor is invoked for the index-1 call first, so consumption
follows first-arrival order, not ascending index order. -/
theorem tool_consumption_order_counterexample :
    (match runChatStream reversedScript 1 [ChatMsg.user "x"] "" emptyDB with
     | .ok r => r.toolTrace.map (fun t => t.tool_name)
     | .error _ => []) = ["tool-b", "tool-a"]
    ∧ (processPass1 reversedScript.pass1).buffer.map Prod.fst = [1, 0]
    ∧ (["tool-b", "tool-a"] : List String) ≠ ["tool-a", "tool-b"] :=
  ⟨by rfl, by rfl, by decide⟩

/-- Witness for `tool_consumption_order_amended` at the reversed-arrival
script. -/
theorem tool_consumption_order_amended_witness :
    (runGenerate reversedScript 1 convA [] emptyDB).toolTrace
      = ((processPass1 reversedScript.pass1).buffer.filter
            (fun p => p.2.function_name ≠ "")).map
          (fun p => ⟨p.2.id, p.2.function_name, p.2.function_arguments⟩)
    ∧ ((processPass1 reversedScript.pass1).buffer = [] →
        (runGenerate reversedScript 1 convA [] emptyDB).pass2Sent = none
        ∧ (runGenerate reversedScript 1 convA [] emptyDB).toolTrace = [])
    ∧ (∀ frags : List ToolCallDelta,
        (ingestToolCalls [] frags).map Prod.fst
          = firstOccurrences (frags.filterMap ToolCallDelta.index)) :=
  tool_consumption_order_amended reversedScript 1 convA [] emptyDB rfl

theorem string_mk_data (t : String) : String.mk t.data = t := rfl

/-- A brace-delimited string — every `json.dumps` of an object — is
untouched by `str.strip()`. -/
theorem pyStrip_braced (s : String) :
    pyStrip ("\x7b" ++ s ++ "\x7d") = "\x7b" ++ s ++ "\x7d" := by
  unfold pyStrip
  have hdata : ("\x7b" ++ s ++ "\x7d").data = '\x7b' :: (s.data ++ ['\x7d']) := by
    simp
  rw [hdata]
  rw [List.dropWhile_cons_of_neg (by decide)]
  have h2 : ('\x7b' :: (s.data ++ ['\x7d'])).reverse
      = '\x7d' :: ('\x7b' :: s.data).reverse := by
    simp
  rw [h2]
  rw [List.dropWhile_cons_of_neg (by decide)]
  have h3 : ('\x7d' :: ('\x7b' :: s.data).reverse).reverse
      = ('\x7b' :: s.data) ++ ['\x7d'] := by
    simp
  rw [h3]
  rw [show ('\x7b' :: s.data) ++ ['\x7d'] = ("\x7b" ++ s ++ "\x7d").data from by simp]

theorem braced_ne_empty (s : String) : ("\x7b" ++ s ++ "\x7d") ≠ "" := by
  intro h
  have : ("\x7b" ++ s ++ "\x7d").data = ("" : String).data := by rw [h]
  simp at this

theorem pyStrip_braced_ne_empty (s : String) :
    pyStrip ("\x7b" ++ s ++ "\x7d") ≠ "" := by
  rw [pyStrip_braced]
  exact braced_ne_empty s

/-- `json.dumps` of an object is brace-delimited. -/
theorem dumpsJson_obj_braced (fs : List (String × Json)) :
    dumpsJson (.obj fs) = "\x7b" ++ dumpsObj fs ++ "\x7d" := by
  simp [dumpsJson]

theorem dumpsToolCallRecord_braced (e : BufferEntry) :
    ∃ m, dumpsToolCallRecord e = "\x7b" ++ m ++ "\x7d" :=
  ⟨_, dumpsJson_obj_braced _⟩

theorem dumpsToolCallResult_braced (r : ToolCallResult) :
    ∃ m, dumpsToolCallResult r = "\x7b" ++ m ++ "\x7d" :=
  ⟨_, dumpsJson_obj_braced _⟩

/-- `findConv` only reads the conversations table. -/
theorem findConv_congr (db db' : DB) (cid : String) (uid : Nat)
    (h : db'.conversations = db.conversations) :
    findConv db' cid uid = findConv db cid uid := by
  unfold findConv
  rw [h]

/-- C1 (amended): with exactly one tool call detected in pass 1 (non-empty
name), the messages persisted after the user message are, in order: one
assistant message whose CONTENT is the JSON text `{"tool_calls": [call]}` —
the message table has no tool_calls column and the content is not empty —
then one tool message whose content is the serialized ToolCallResult and
whose `name` is the tool name (no tool_call_id is stored), then one
assistant message with the stripped pass-2 content.  The outbound list for
the second upstream call is the pass-1 list plus exactly ONE tool message
carrying the serialized result: no assistant message carrying `tool_calls`
is appended, and the appended tool message has no `tool_call_id`. -/
theorem tool_roundtrip_messages_amended (script : Script) (uid : Nat)
    (reqMessages : List ChatMsg) (sysPrompt : String) (db : DB)
    (m0 mL : ChatMsg) (t0 uc : String) (i : Nat) (e : BufferEntry)
    (hhead : reqMessages.head? = some m0) (ht : m0.content = some t0)
    (hlast : reqMessages.getLast? = some mL) (hcl : mL.content = some uc)
    (huc : pyStrip uc ≠ "")
    (h1 : script.pass1Err = none)
    (hbuf : (processPass1 script.pass1).buffer = [(i, e)])
    (hname : e.function_name ≠ "")
    (h2 : script.pass2Err = none)
    (harc : pyStrip (processPass2 script.pass2).assistant_response_content ≠ "")
    (hfail : db.failSchedule = []) :
    ∃ r rres,
      runChatStream script uid reqMessages sysPrompt db = .ok r
      ∧ r.db.messages = db.messages
          ++ [⟨(get_or_create_conversation db uid (pySlice t0 50)).1.id, "user",
               pyStrip uc, mL.name, 0⟩,
              ⟨(get_or_create_conversation db uid (pySlice t0 50)).1.id, "assistant",
               dumpsToolCallRecord e, some "assistant", 0⟩,
              ⟨(get_or_create_conversation db uid (pySlice t0 50)).1.id, "tool",
               dumpsToolCallResult rres, some e.function_name, 0⟩,
              ⟨(get_or_create_conversation db uid (pySlice t0 50)).1.id, "assistant",
               pyStrip (processPass2 script.pass2).assistant_response_content,
               some "assistant", 0⟩]
      ∧ r.pass2Sent = some (((if sysPrompt ≠ "" then [ChatMsg.system sysPrompt] else [])
            ++ reqMessages)
          ++ [ChatMsg.toolResult (dumpsToolCallResult rres) e.function_name])
      ∧ r.toolTrace = [⟨e.id, e.function_name, e.function_arguments⟩] := by
  obtain ⟨hm, htr, hlg, hfs, c0, hc0⟩ := get_or_create_effects db uid (pySlice t0 50)
  set gc := get_or_create_conversation db uid (pySlice t0 50) with hgc
  obtain ⟨husome, humsg, hutr, hulg, hufs, c1, hc1, hc1id, hc1uid⟩ :=
    add_message_ok gc.2 gc.1.id uid "user" uc mL.name c0 hc0 huc (by decide)
      (by rw [hfs, hfail])
  set db2 := (add_message gc.2 gc.1.id uid "user" uc mL.name).2 with hdb2
  set msgs0 := (if sysPrompt ≠ "" then [ChatMsg.system sysPrompt] else []) ++ reqMessages
    with hmsgs0
  have hrun : runChatStream script uid reqMessages sysPrompt db
      = .ok (runGenerate script uid gc.1 msgs0 db2) := by
    unfold runChatStream
    rw [hhead, hlast]
    simp only [ht, hcl, Option.map, Option.bind, Option.getD]
  set r0 := (execute_tool_call e.id e.function_name e.function_arguments uid db2).1
    with hr0
  set dbE := (execute_tool_call e.id e.function_name e.function_arguments uid db2).2
    with hdbE
  obtain ⟨hem, hec, hel, hef⟩ :=
    execute_tool_call_effects e.id e.function_name e.function_arguments uid db2 hufs
  have hcE : findConv dbE gc.1.id uid = some c1 := by
    rw [findConv_congr db2 dbE _ _ hec]
    exact hc1
  obtain ⟨minner, hmi⟩ := dumpsToolCallRecord_braced e
  have hrecstrip : pyStrip (dumpsToolCallRecord e) = dumpsToolCallRecord e := by
    rw [hmi]
    exact pyStrip_braced minner
  have hrecne : pyStrip (dumpsToolCallRecord e) ≠ "" := by
    rw [hmi]
    exact pyStrip_braced_ne_empty minner
  obtain ⟨hasome, hamsg, hatr, halg, hafs, c2, hc2, hc2id, hc2uid⟩ :=
    add_message_ok dbE gc.1.id uid "assistant" (dumpsToolCallRecord e) (some "assistant")
      c1 hcE hrecne (by decide) hef
  set dbA := (add_message dbE gc.1.id uid "assistant" (dumpsToolCallRecord e)
    (some "assistant")).2 with hdbA
  obtain ⟨rinner, hri⟩ := dumpsToolCallResult_braced r0
  have hresstrip : pyStrip (dumpsToolCallResult r0) = dumpsToolCallResult r0 := by
    rw [hri]
    exact pyStrip_braced rinner
  have hresne : pyStrip (dumpsToolCallResult r0) ≠ "" := by
    rw [hri]
    exact pyStrip_braced_ne_empty rinner
  obtain ⟨htsome, htmsg, httr, htlg, htfs, c3, hc3, hc3id, hc3uid⟩ :=
    add_message_ok dbA gc.1.id uid "tool" (dumpsToolCallResult r0) (some e.function_name)
      c2 hc2 hresne (by decide) hafs
  set dbT := (add_message dbA gc.1.id uid "tool" (dumpsToolCallResult r0)
    (some e.function_name)).2 with hdbT
  have htp : runToolPhase [(i, e)] uid gc.1.id db2
      = { db := dbT, results := [(e.id, r0, e.function_name)],
          trace := [⟨e.id, e.function_name, e.function_arguments⟩] } := by
    unfold runToolPhase
    simp only [List.foldl]
    unfold toolPhaseStep
    rw [if_neg hname]
    rfl
  set arc := (processPass2 script.pass2).assistant_response_content with harcdef
  have harcne : arc ≠ "" := by
    intro hz
    rw [hz] at harc
    exact harc pyStrip_empty
  obtain ⟨hfsome, hfmsg, hftr, hflg, hffs, c4, hc4, hc4id, hc4uid⟩ :=
    add_message_ok dbT gc.1.id uid "assistant" arc (some "assistant") c3 hc3 harc
      (by decide) htfs
  have hgen : runGenerate script uid gc.1 msgs0 db2
      = successTail uid
          ((processPass1 script.pass1).events ++ (processPass2 script.pass2).events)
          (add_message dbT gc.1.id uid "assistant" arc (some "assistant")).2
          (some (msgs0 ++ [ChatMsg.toolResult (dumpsToolCallResult r0) e.function_name]))
          [⟨e.id, e.function_name, e.function_arguments⟩] := by
    unfold runGenerate afterPass1
    rw [h1, hbuf]
    simp only
    rw [htp]
    simp only
    rw [h2]
    simp only [List.map_cons, List.map_nil]
    rw [if_pos harcne]
  refine ⟨_, r0, by rw [hrun, hgen], ?_, ?_, ?_⟩
  · rw [successTail_eq]
    show (add_message dbT gc.1.id uid "assistant" arc (some "assistant")).2.messages = _
    rw [hfmsg, htmsg, hamsg, hem, humsg, hm, hrecstrip, hresstrip]
    simp [List.append_assoc]
  · rw [successTail_eq]
  · rw [successTail_eq]

/-- C1 counterexample: with exactly one tool call detected, the outbound
message list sent to the second upstream call contains — after the
single-message history — only ONE appended message, a tool message, and no
message in it carries `tool_calls` or `tool_call_id`; moreover every
persisted message of the turn has non-empty content, so no persisted
assistant message matches the claimed `tool_calls`-with-empty-content
shape, and the persisted tool message stores the tool name but no
tool_call_id (the table has no such column). -/
theorem tool_roundtrip_messages_counterexample :
    (match runChatStream oneToolScript 1 [ChatMsg.user "帮我创建行程"] "" emptyDB with
     | .ok r =>
       (match r.pass2Sent with
        | some l => (l.length, l.map (fun m => m.role),
            l.all (fun m => m.tool_calls.isNone && m.tool_call_id.isNone))
        | none => (0, [], false))
     | .error _ => (0, [], false))
      = (2, ["user", "tool"], true)
    ∧ (match runChatStream oneToolScript 1 [ChatMsg.user "帮我创建行程"] "" emptyDB with
       | .ok r => r.db.messages.map (fun m => (m.role, m.content != ""))
       | .error _ => [])
      = [("user", true), ("assistant", true), ("tool", true), ("assistant", true)] :=
  ⟨by rfl, by rfl⟩

/-- Witness for `tool_roundtrip_messages_amended` at a concrete one-call
script. -/
theorem tool_roundtrip_messages_amended_witness :
    ∃ r rres,
      runChatStream oneToolScript 1 [ChatMsg.user "帮我创建行程"] "" emptyDB = .ok r
      ∧ r.db.messages = emptyDB.messages
          ++ [⟨(get_or_create_conversation emptyDB 1 (pySlice "帮我创建行程" 50)).1.id,
               "user", pyStrip "帮我创建行程", (ChatMsg.user "帮我创建行程").name, 0⟩,
              ⟨(get_or_create_conversation emptyDB 1 (pySlice "帮我创建行程" 50)).1.id,
               "assistant", dumpsToolCallRecord ⟨"call_1", "magic", "\x7b\x7d"⟩,
               some "assistant", 0⟩,
              ⟨(get_or_create_conversation emptyDB 1 (pySlice "帮我创建行程" 50)).1.id,
               "tool", dumpsToolCallResult rres,
               some (BufferEntry.function_name ⟨"call_1", "magic", "\x7b\x7d"⟩), 0⟩,
              ⟨(get_or_create_conversation emptyDB 1 (pySlice "帮我创建行程" 50)).1.id,
               "assistant",
               pyStrip (processPass2 oneToolScript.pass2).assistant_response_content,
               some "assistant", 0⟩]
      ∧ r.pass2Sent = some (((if ("" : String) ≠ "" then [ChatMsg.system ""] else [])
            ++ [ChatMsg.user "帮我创建行程"])
          ++ [ChatMsg.toolResult (dumpsToolCallResult rres)
                (BufferEntry.function_name ⟨"call_1", "magic", "\x7b\x7d"⟩)])
      ∧ r.toolTrace = [⟨BufferEntry.id ⟨"call_1", "magic", "\x7b\x7d"⟩,
          BufferEntry.function_name ⟨"call_1", "magic", "\x7b\x7d"⟩,
          BufferEntry.function_arguments ⟨"call_1", "magic", "\x7b\x7d"⟩⟩] :=
  tool_roundtrip_messages_amended oneToolScript 1 [ChatMsg.user "帮我创建行程"] "" emptyDB
    (ChatMsg.user "帮我创建行程") (ChatMsg.user "帮我创建行程") "帮我创建行程" "帮我创建行程"
    0 ⟨"call_1", "magic", "\x7b\x7d"⟩ rfl rfl rfl rfl (by decide) rfl (by rfl) (by decide)
    rfl (by decide) rfl

theorem updGt_irrefl (a : Option Nat) : updGt a a = false := by
  cases a <;> simp [updGt]

/-- The NULLS-FIRST comparison is a strict order: transitivity. -/
theorem updGt_trans (a b c : Option Nat) (hab : updGt a b = true)
    (hbc : updGt b c = true) : updGt a c = true := by
  cases a <;> cases b <;> cases c <;> first
  | (simp_all [updGt]; omega)
  | simp_all [updGt]

/-- `¬(a beats b)` and `a beats c` force `b beats c`: the NULLS-FIRST
ordering is a total preorder. -/
theorem updGt_ge_trans (a b c : Option Nat) (hab : updGt a b = false)
    (hac : updGt a c = true) : updGt b c = true := by
  cases a <;> cases b <;> cases c <;> first
  | (simp_all [updGt]; omega)
  | simp_all [updGt]

theorem pickLatest_max_aux (cs : List ConvRec) :
    ∀ (init : Option ConvRec) (c : ConvRec),
      cs.foldl
        (fun best x =>
          match best with
          | none => some x
          | some b => if updGt x.updated_at b.updated_at then some x else some b)
        init = some c →
      (∀ x ∈ cs, updGt x.updated_at c.updated_at = false)
      ∧ (∀ b, init = some b → updGt b.updated_at c.updated_at = false) := by
  induction cs with
  | nil =>
    intro init c h
    refine ⟨?_, ?_⟩
    · intro x hx
      cases hx
    · intro b hb
      rw [hb] at h
      rw [Option.some.inj h]
      exact updGt_irrefl _
  | cons a t ih =>
    intro init c h
    cases init with
    | none =>
      obtain ⟨hall, hinit⟩ := ih (some a) c h
      have hac : updGt a.updated_at c.updated_at = false := hinit a rfl
      refine ⟨?_, ?_⟩
      · intro x hx
        rcases List.mem_cons.mp hx with hxa | hxt
        · rw [hxa]; exact hac
        · exact hall x hxt
      · intro b hb; cases hb
    | some b0 =>
      have hstep : (a :: t).foldl
          (fun best x =>
            match best with
            | none => some x
            | some b => if updGt x.updated_at b.updated_at then some x else some b)
          (some b0)
        = t.foldl
            (fun best x =>
              match best with
              | none => some x
              | some b => if updGt x.updated_at b.updated_at then some x else some b)
            (if updGt a.updated_at b0.updated_at then some a else some b0) := rfl
      rw [hstep] at h
      by_cases hgt : updGt a.updated_at b0.updated_at = true
      · rw [if_pos hgt] at h
        obtain ⟨hall, hinit⟩ := ih _ c h
        have hac : updGt a.updated_at c.updated_at = false := hinit a rfl
        refine ⟨?_, ?_⟩
        · intro x hx
          rcases List.mem_cons.mp hx with hxa | hxt
          · rw [hxa]; exact hac
          · exact hall x hxt
        · intro b hb
          have hbb0 : b0 = b := Option.some.inj hb
          subst hbb0
          by_contra hbc
          rw [Bool.not_eq_false] at hbc
          have := updGt_trans a.updated_at b0.updated_at c.updated_at hgt hbc
          rw [this] at hac
          cases hac
      · rw [if_neg hgt] at h
        obtain ⟨hall, hinit⟩ := ih _ c h
        have hbc : updGt b0.updated_at c.updated_at = false := hinit b0 rfl
        have hab : updGt a.updated_at b0.updated_at = false := by
          rw [Bool.not_eq_true] at hgt
          exact hgt
        refine ⟨?_, ?_⟩
        · intro x hx
          rcases List.mem_cons.mp hx with hxa | hxt
          · rw [hxa]
            by_contra hac
            rw [Bool.not_eq_false] at hac
            have := updGt_ge_trans a.updated_at b0.updated_at c.updated_at hab hac
            rw [this] at hbc
            cases hbc
          · exact hall x hxt
        · intro b hb
          have hbb0 : b0 = b := Option.some.inj hb
          subst hbb0
          exact hbc

/-- The conversation returned by `ORDER BY updated_at DESC LIMIT 1` is not
beaten by any row of the query (NULLs first). -/
theorem pickLatest_max (cs : List ConvRec) (c : ConvRec) (h : pickLatest cs = some c) :
    ∀ x ∈ cs, updGt x.updated_at c.updated_at = false :=
  (pickLatest_max_aux cs none c h).1

theorem pickLatest_isSome (cs : List ConvRec) (h : cs ≠ []) :
    ∃ c, pickLatest cs = some c := by
  have aux : ∀ (t : List ConvRec) (b : ConvRec), ∃ c,
      t.foldl
        (fun best x =>
          match best with
          | none => some x
          | some b => if updGt x.updated_at b.updated_at then some x else some b)
        (some b) = some c := by
    intro t
    induction t with
    | nil => exact fun b => ⟨b, rfl⟩
    | cons a t ih =>
      intro b
      by_cases hgt : updGt a.updated_at b.updated_at = true
      · obtain ⟨c, hc⟩ := ih a
        refine ⟨c, ?_⟩
        rw [show ((a :: t).foldl _ (some b) : Option ConvRec)
            = t.foldl _ (if updGt a.updated_at b.updated_at then some a else some b)
          from rfl]
        rw [if_pos hgt]
        exact hc
      · obtain ⟨c, hc⟩ := ih b
        refine ⟨c, ?_⟩
        rw [show ((a :: t).foldl _ (some b) : Option ConvRec)
            = t.foldl _ (if updGt a.updated_at b.updated_at then some a else some b)
          from rfl]
        rw [if_neg hgt]
        exact hc
  cases cs with
  | nil => exact absurd rfl h
  | cons a t => exact aux t a

/-- C10 (amended): when the user has at least one active conversation,
`get_or_create_conversation` returns — without writing anything and
ignoring the title argument — the first active conversation under
`updated_at` descending with NULLs first (PostgreSQL's DESC default): no
active conversation strictly beats the returned one under that order, so
when every active conversation has a distinct non-null `updated_at` it is
the most recently updated one, but a never-updated conversation (NULL
`updated_at`) wins over every updated one.  Only when the user has no
active conversation is a fresh one inserted with the given title. -/
theorem get_or_create_conversation_amended (db : DB) (uid : Nat) (title : String) :
    (db.conversations.filter (fun c => c.user_id = uid && c.is_active) ≠ [] →
      (get_or_create_conversation db uid title).2 = db
      ∧ (get_or_create_conversation db uid title).1
          ∈ db.conversations.filter (fun c => c.user_id = uid && c.is_active)
      ∧ (∀ x ∈ db.conversations.filter (fun c => c.user_id = uid && c.is_active),
          updGt x.updated_at (get_or_create_conversation db uid title).1.updated_at = false)
      ∧ (∀ t', (get_or_create_conversation db uid t').1
          = (get_or_create_conversation db uid title).1))
    ∧ (db.conversations.filter (fun c => c.user_id = uid && c.is_active) = [] →
      (get_or_create_conversation db uid title).1 = newConversation db uid title "chat-model"
      ∧ (get_or_create_conversation db uid title).2
          = insertConversation db (newConversation db uid title "chat-model")) := by
  constructor
  · intro hne
    obtain ⟨c, hp⟩ := pickLatest_isSome _ hne
    have hgc : get_or_create_conversation db uid title = (c, db) := by
      simp only [get_or_create_conversation, hp]
    rw [hgc]
    refine ⟨rfl, pickLatest_mem _ c hp, pickLatest_max _ c hp, ?_⟩
    intro t'
    have hgc' : get_or_create_conversation db uid t' = (c, db) := by
      simp only [get_or_create_conversation, hp]
    rw [hgc']
  · intro hnil
    have hp : pickLatest (db.conversations.filter (fun c => c.user_id = uid && c.is_active))
        = none := by
      rw [hnil]
      rfl
    have hgc : get_or_create_conversation db uid title
        = (newConversation db uid title "chat-model",
           insertConversation db (newConversation db uid title "chat-model")) := by
      simp only [get_or_create_conversation, hp]
    rw [hgc]
    exact ⟨rfl, rfl⟩

/-- C10 counterexample: user 1 has two active conversations — `convA`,
last updated at tick 10, and `convB`, created later through
`POST /api/chat/conversations` and never updated, so its `updated_at` is
NULL.  PostgreSQL sorts NULLs first under `ORDER BY updated_at DESC`, so
the call returns the never-updated `convB` rather than the
most-recently-updated conversation `convA`, contradicting the claim. -/
theorem get_or_create_conversation_counterexample :
    (get_or_create_conversation twoConvDB 1 "新对话").1 = convB
    ∧ convB.updated_at = none
    ∧ convA.updated_at = some 10
    ∧ convA ∈ twoConvDB.conversations
    ∧ convA.is_active = true
    ∧ convA.user_id = 1
    ∧ convB ≠ convA :=
  ⟨by rfl, rfl, rfl, by decide, rfl, rfl, by decide⟩

/-- Witness for `get_or_create_conversation_amended` on the two-conversation
database (the active list is non-empty, so the first branch fires). -/
theorem get_or_create_conversation_amended_witness :
    (twoConvDB.conversations.filter (fun c => c.user_id = 1 && c.is_active) ≠ [] →
      (get_or_create_conversation twoConvDB 1 "t").2 = twoConvDB
      ∧ (get_or_create_conversation twoConvDB 1 "t").1
          ∈ twoConvDB.conversations.filter (fun c => c.user_id = 1 && c.is_active)
      ∧ (∀ x ∈ twoConvDB.conversations.filter (fun c => c.user_id = 1 && c.is_active),
          updGt x.updated_at
            (get_or_create_conversation twoConvDB 1 "t").1.updated_at = false)
      ∧ (∀ t', (get_or_create_conversation twoConvDB 1 t').1
          = (get_or_create_conversation twoConvDB 1 "t").1))
    ∧ (twoConvDB.conversations.filter (fun c => c.user_id = 1 && c.is_active) = [] →
      (get_or_create_conversation twoConvDB 1 "t").1
          = newConversation twoConvDB 1 "t" "chat-model"
      ∧ (get_or_create_conversation twoConvDB 1 "t").2
          = insertConversation twoConvDB (newConversation twoConvDB 1 "t" "chat-model")) :=
  get_or_create_conversation_amended twoConvDB 1 "t"

/-- Witness for `upstream_error_mapping`: the spec's P7 input, status 401
with body `\x7b"error": \x7b"message": "bad key"\x7d\x7d`. -/
theorem upstream_error_mapping_witness :
    (chat_client_response_error 401 c6Body
        = some (handle_api_error 401 (extract_error_message c6Body))
      ∧ (handle_api_error 401 (extract_error_message c6Body)).status_code
          = (if 401 = 401 then 401 else if 401 = 429 then 429
             else if 401 ≥ 500 then 503 else 401)
      ∧ (∃ pre, (handle_api_error 401 (extract_error_message c6Body)).detail
          = pre ++ extract_error_message c6Body)
      ∧ (∀ fields efields m, json_loads c6Body = .ok (.obj fields) →
          jGet fields "error" = some (.obj efields) →
          jGet efields "message" = some (.str m) →
          extract_error_message c6Body = m)
      ∧ (∀ e, json_loads c6Body = .error e → extract_error_message c6Body = c6Body))
    ∧ extract_error_message c6Body = "bad key" :=
  ⟨upstream_error_mapping 401 c6Body (by decide), by decide⟩

end AITravel
